import Mathlib

/-!
# elegant_exception / general_exception

A shallow embedding of the two headers of the repository,
`include/elegant_exception.h` and `include/general_exception.h`, and the
properties of the error value they define.

* Byte strings (`std::string`, `std::string_view`, `const char*`) are lists of
  bytes.
* `ExceptionID` is `u_int64_t`; it is a natural number here, and the bound
  `< 2 ^ 64` is stated where it matters.  No arithmetic is done on a code.
* The two class template specialisations (`ReleaseBuildTag`, `DebugBuildTag`)
  are two structures; a constructor is a function that returns the value.
* `std::format` is modelled for the only replacement field the templates of
  the repository use, `{}`.
* A default argument `std::source_location::current()` is evaluated at the
  position of the invocation that leaves the argument out, so every
  constructor that has one takes the position of its invocation.
-/

namespace Exc

/-! ## Common vocabulary of the two headers -/

/-- One `char` of a `std::string`. -/
abbrev Byte := UInt8

/-- The bytes of an ASCII string literal: one byte per character. -/
def bytes (s : String) : List Byte := s.data.map (fun c => UInt8.ofNat c.toNat)

/-- Type alias `using ExceptionID = u_int64_t`. -/
abbrev ExceptionID := Nat

/-- Type alias `using ExceptionMessage = std::string`. -/
abbrev ExceptionMessage := List Byte

/-- Type alias `using ExceptionMessageView = std::string_view`. -/
abbrev ExceptionMessageView := List Byte

/-- Constant `max_exception_message_size = 256`. -/
def max_exception_message_size : Nat := 256

/-- Value of `std::numeric_limits<ExceptionID>::max()` for a 64-bit unsigned code. -/
def ExceptionID_max : ExceptionID := 2 ^ 64 - 1

/-- The four observers of `std::source_location`. -/
structure source_location where
  file_name : List Byte
  function_name : List Byte
  line : Nat
  column : Nat
  deriving DecidableEq, Repr

/-- Type alias `using ExceptionLocation = std::source_location`. -/
abbrev ExceptionLocation := source_location

/-- Call `std::source_location::current()` written as a default argument: it
denotes the position of the invocation that leaves the argument out. -/
def source_location.current (invocation : source_location) : source_location :=
  invocation

/-- What the compiler reports for positions inside a header: the name under
which the header was read, and the function name and column it gives for a
line of the header.  All three are implementation-defined; the line is not. -/
structure Compiler where
  header_file : List Byte
  function_name : Nat → List Byte
  column : Nat → Nat

/-- The position of line `line` of the header. -/
def header_site (cc : Compiler) (line : Nat) : source_location :=
  { file_name := cc.header_file
    function_name := cc.function_name line
    line := line
    column := cc.column line }

/-- The operations a holder of an error value can perform on it.  The
accessors are `const` member functions of a class without `mutable` members;
`copy` is the implicit copy constructor. -/
inductive Operation where
  | what
  | id
  | message
  | location
  | copy
  deriving DecidableEq, Repr

/-- The arguments of a construction expression of an error class, by their
static type: `std::string` and `std::string_view` both convert to the view
parameter of an overload that has no `std::string` form. -/
inductive Arg where
  | id (c : ExceptionID)
  | msg (m : ExceptionMessage)
  | view (m : ExceptionMessageView)
  | loc (l : source_location)

/-! ## `std::format` -/

/-- Decimal digits of `n`, most significant first; `fuel` bounds the number of
digits produced. -/
def to_chars_aux : Nat → Nat → List Byte
  | 0, _ => []
  | fuel + 1, n =>
    if n < 10 then [UInt8.ofNat (48 + n)]
    else to_chars_aux fuel (n / 10) ++ [UInt8.ofNat (48 + n % 10)]

/-- How `std::format` renders an unsigned integer for `{}`: decimal, no sign,
no leading zero, no separator.  A number has at most `n + 1` digits. -/
def format_unsigned (n : Nat) : List Byte := to_chars_aux (n + 1) n

/-- Function `std::format(fmt, args...)` for a template whose replacement
fields are all `{}`: the text is copied, and the k-th `{}` is replaced by the
rendering of the k-th argument. -/
def std_format : List Byte → List (List Byte) → List Byte
  | [], _ => []
  | [c], _ => [c]
  | c :: d :: rest, args =>
    if c = 123 ∧ d = 125 then
      match args with
      | [] => std_format rest []
      | a :: more => a ++ std_format rest more
    else c :: std_format (d :: rest) args

/-! ## `include/elegant_exception.h` -/

namespace Elegant

/-- Method `std::formatter<std::source_location, char>::format` of
`elegant_exception.h`. -/
def formatter_source_location_format (loc : source_location) : List Byte :=
  std_format (bytes "file name: {}, function name: {}, line: {}")
    [loc.file_name, loc.function_name, format_unsigned loc.line]

/-- Lambda `limit_exception_message` of `elegant_exception.h`. -/
def limit_exception_message (in_exception_message_view : ExceptionMessageView) :
    ExceptionMessage :=
  if in_exception_message_view.length ≤ max_exception_message_size then
    in_exception_message_view
  else
    (in_exception_message_view.drop 0).take max_exception_message_size

/-! ### `elegant_exception_base<ReleaseBuildTag>` and the public class in a
build with `NDEBUG` -/

namespace Release

/-- Class `elegant_exception_base<ReleaseBuildTag>`: its two data members. -/
structure elegant_exception_base where
  exception_id : ExceptionID
  exception_message : ExceptionMessage
  deriving DecidableEq, Repr

namespace elegant_exception_base

/-- Member `format_template`. -/
def format_template : List Byte :=
  bytes "Exception: error_code: {}, error_message: {}"

/-- Constructor `elegant_exception_base() = default`: the default member
initialisers. -/
def ctor : elegant_exception_base :=
  { exception_id := ExceptionID_max, exception_message := [] }

/-- Constructor `elegant_exception_base(ExceptionID)`. -/
def ctor_id (in_exception_id : ExceptionID) : elegant_exception_base :=
  { exception_id := in_exception_id, exception_message := [] }

/-- Constructor `elegant_exception_base(const ExceptionMessage&)`. -/
def ctor_msg (in_exception_msg : ExceptionMessage) : elegant_exception_base :=
  { exception_id := ExceptionID_max
    exception_message := limit_exception_message in_exception_msg }

/-- Constructor `elegant_exception_base(ExceptionMessageView)`. -/
def ctor_view (in_exception_msg : ExceptionMessageView) : elegant_exception_base :=
  { exception_id := ExceptionID_max
    exception_message := limit_exception_message in_exception_msg }

/-- Constructor `elegant_exception_base(ExceptionID, const ExceptionMessage&)`. -/
def ctor_id_msg (in_exception_id : ExceptionID) (in_exception_msg : ExceptionMessage) :
    elegant_exception_base :=
  { exception_id := in_exception_id
    exception_message := limit_exception_message in_exception_msg }

/-- Constructor `elegant_exception_base(ExceptionID, ExceptionMessageView)`. -/
def ctor_id_view (in_exception_id : ExceptionID) (in_exception_msg : ExceptionMessageView) :
    elegant_exception_base :=
  { exception_id := in_exception_id
    exception_message := limit_exception_message in_exception_msg }

/-- Method `what()`. -/
def what (self : elegant_exception_base) : ExceptionMessage :=
  std_format format_template [format_unsigned self.exception_id, self.exception_message]

/-- Method `id()`. -/
def id (self : elegant_exception_base) : ExceptionID := self.exception_id

/-- Method `message()`. -/
def message (self : elegant_exception_base) : ExceptionMessageView := self.exception_message

/-- The implicit copy constructor: member by member. -/
def copy (self : elegant_exception_base) : elegant_exception_base :=
  { exception_id := self.exception_id, exception_message := self.exception_message }

/-- The object after one operation on it (after `copy`: the copy).  There is no
`location()` in this specialisation, so that operation cannot be written and
leaves nothing to do. -/
def after (self : elegant_exception_base) : Operation → elegant_exception_base
  | .copy => self.copy
  | _ => self

/-- The values a constructor of the class produces. -/
inductive Constructed : elegant_exception_base → Prop
  | ctor : Constructed ctor
  | ctor_id (c : ExceptionID) : Constructed (ctor_id c)
  | ctor_msg (m : ExceptionMessage) : Constructed (ctor_msg m)
  | ctor_view (m : ExceptionMessageView) : Constructed (ctor_view m)
  | ctor_id_msg (c : ExceptionID) (m : ExceptionMessage) : Constructed (ctor_id_msg c m)
  | ctor_id_view (c : ExceptionID) (m : ExceptionMessageView) : Constructed (ctor_id_view c m)

end elegant_exception_base

/-- Class `elegant_exception::elegant_exception` when `BuildTag` is
`ReleaseBuildTag`: derived from the base, no member of its own. -/
structure elegant_exception extends elegant_exception_base
  deriving DecidableEq, Repr

namespace elegant_exception

/-- Constructor `elegant_exception() = default`. -/
def ctor : elegant_exception := ⟨elegant_exception_base.ctor⟩

/-- Constructor `elegant_exception(ExceptionID)`: `Base{in_exception_id}`. -/
def ctor_id (in_exception_id : ExceptionID) : elegant_exception :=
  ⟨elegant_exception_base.ctor_id in_exception_id⟩

/-- Constructor `elegant_exception(const ExceptionMessage&)`: `Base{in_exception_msg}`. -/
def ctor_msg (in_exception_msg : ExceptionMessage) : elegant_exception :=
  ⟨elegant_exception_base.ctor_msg in_exception_msg⟩

/-- Constructor `elegant_exception(const ExceptionMessageView)`: `Base{in_exception_msg}`. -/
def ctor_view (in_exception_msg : ExceptionMessageView) : elegant_exception :=
  ⟨elegant_exception_base.ctor_view in_exception_msg⟩

/-- Constructor `elegant_exception(ExceptionID, const ExceptionMessageView)`. -/
def ctor_id_view (in_exception_id : ExceptionID) (in_exception_msg : ExceptionMessageView) :
    elegant_exception :=
  ⟨elegant_exception_base.ctor_id_view in_exception_id in_exception_msg⟩

/-- Declaration `using Base::what`. -/
def what (self : elegant_exception) : ExceptionMessage := self.toelegant_exception_base.what

/-- Declaration `using Base::id`. -/
def id (self : elegant_exception) : ExceptionID := self.toelegant_exception_base.id

/-- Declaration `using Base::message`. -/
def message (self : elegant_exception) : ExceptionMessageView :=
  self.toelegant_exception_base.message

/-- The implicit copy constructor: it copies the base subobject. -/
def copy (self : elegant_exception) : elegant_exception := ⟨self.toelegant_exception_base.copy⟩

/-- The object after one operation on it (after `copy`: the copy). -/
def after (self : elegant_exception) : Operation → elegant_exception
  | .copy => self.copy
  | _ => self

/-- The values a constructor of the public class produces. -/
inductive Constructed : elegant_exception → Prop
  | ctor : Constructed ctor
  | ctor_id (c : ExceptionID) : Constructed (ctor_id c)
  | ctor_msg (m : ExceptionMessage) : Constructed (ctor_msg m)
  | ctor_view (m : ExceptionMessageView) : Constructed (ctor_view m)
  | ctor_id_view (c : ExceptionID) (m : ExceptionMessageView) : Constructed (ctor_id_view c m)

end elegant_exception

end Release

/-! ### `elegant_exception_base<DebugBuildTag>` and the public class in a
build without `NDEBUG` -/

namespace Debug

/-- Class `elegant_exception_base<DebugBuildTag>`: its three data members. -/
structure elegant_exception_base where
  exception_id : ExceptionID
  exception_message : ExceptionMessage
  exception_location : ExceptionLocation
  deriving DecidableEq, Repr

namespace elegant_exception_base

/-- Member `format_template`. -/
def format_template : List Byte :=
  bytes "Exception: error_code: {}, error_message: {}, {}"

/-- Member `loc_format_string`. -/
def loc_format_string : List Byte := bytes "{}"

/-- Constructor `elegant_exception_base(std::source_location = current())`,
invoked at `site`; `none` is an invocation that leaves the location out. -/
def ctor (site : source_location) (in_exception_location : Option source_location) :
    elegant_exception_base :=
  { exception_id := ExceptionID_max
    exception_message := []
    exception_location := in_exception_location.getD (source_location.current site) }

/-- Constructor `elegant_exception_base(ExceptionID, std::source_location = current())`. -/
def ctor_id (site : source_location) (in_exception_id : ExceptionID)
    (in_exception_location : Option source_location) : elegant_exception_base :=
  { exception_id := in_exception_id
    exception_message := []
    exception_location := in_exception_location.getD (source_location.current site) }

/-- Constructor
`elegant_exception_base(const ExceptionMessage&, std::source_location = current())`. -/
def ctor_msg (site : source_location) (in_exception_msg : ExceptionMessage)
    (in_exception_location : Option source_location) : elegant_exception_base :=
  { exception_id := ExceptionID_max
    exception_message := limit_exception_message in_exception_msg
    exception_location := in_exception_location.getD (source_location.current site) }

/-- Constructor
`elegant_exception_base(const ExceptionMessageView, std::source_location = current())`. -/
def ctor_view (site : source_location) (in_exception_msg : ExceptionMessageView)
    (in_exception_location : Option source_location) : elegant_exception_base :=
  { exception_id := ExceptionID_max
    exception_message := limit_exception_message in_exception_msg
    exception_location := in_exception_location.getD (source_location.current site) }

/-- Constructor `elegant_exception_base(ExceptionID, const ExceptionMessage&,
std::source_location = current())`. -/
def ctor_id_msg (site : source_location) (in_exception_id : ExceptionID)
    (in_exception_msg : ExceptionMessage) (in_exception_location : Option source_location) :
    elegant_exception_base :=
  { exception_id := in_exception_id
    exception_message := limit_exception_message in_exception_msg
    exception_location := in_exception_location.getD (source_location.current site) }

/-- Constructor `elegant_exception_base(ExceptionID, const ExceptionMessageView,
std::source_location = current())`. -/
def ctor_id_view (site : source_location) (in_exception_id : ExceptionID)
    (in_exception_msg : ExceptionMessageView) (in_exception_location : Option source_location) :
    elegant_exception_base :=
  { exception_id := in_exception_id
    exception_message := limit_exception_message in_exception_msg
    exception_location := in_exception_location.getD (source_location.current site) }

/-- Method `what()`: the location is an argument of the one `std::format`
call and is rendered by the formatter of the header. -/
def what (self : elegant_exception_base) : ExceptionMessage :=
  std_format format_template
    [format_unsigned self.exception_id, self.exception_message,
     formatter_source_location_format self.exception_location]

/-- Method `id()`. -/
def id (self : elegant_exception_base) : ExceptionID := self.exception_id

/-- Method `message()`. -/
def message (self : elegant_exception_base) : ExceptionMessageView := self.exception_message

/-- Method `location()`. -/
def location (self : elegant_exception_base) : ExceptionLocation := self.exception_location

/-- The implicit copy constructor: member by member. -/
def copy (self : elegant_exception_base) : elegant_exception_base :=
  { exception_id := self.exception_id
    exception_message := self.exception_message
    exception_location := self.exception_location }

/-- The object after one operation on it (after `copy`: the copy). -/
def after (self : elegant_exception_base) : Operation → elegant_exception_base
  | .copy => self.copy
  | _ => self

/-- The values a constructor of the class produces. -/
inductive Constructed : elegant_exception_base → Prop
  | ctor (site : source_location) (l : Option source_location) : Constructed (ctor site l)
  | ctor_id (site : source_location) (c : ExceptionID) (l : Option source_location) :
      Constructed (ctor_id site c l)
  | ctor_msg (site : source_location) (m : ExceptionMessage) (l : Option source_location) :
      Constructed (ctor_msg site m l)
  | ctor_view (site : source_location) (m : ExceptionMessageView)
      (l : Option source_location) : Constructed (ctor_view site m l)
  | ctor_id_msg (site : source_location) (c : ExceptionID) (m : ExceptionMessage)
      (l : Option source_location) : Constructed (ctor_id_msg site c m l)
  | ctor_id_view (site : source_location) (c : ExceptionID) (m : ExceptionMessageView)
      (l : Option source_location) : Constructed (ctor_id_view site c m l)

end elegant_exception_base

/-- Class `elegant_exception::elegant_exception` when `BuildTag` is
`DebugBuildTag`: derived from the base, no member of its own. -/
structure elegant_exception extends elegant_exception_base
  deriving DecidableEq, Repr

namespace elegant_exception

/-- Constructor `elegant_exception() = default` (line 218), used at `_site`:
the base is default-initialised from inside the defaulted constructor, and
the position of the use is not handed on. -/
def ctor (cc : Compiler) (_site : source_location) : elegant_exception :=
  ⟨elegant_exception_base.ctor (header_site cc 218) none⟩

/-- Constructor `elegant_exception(ExceptionID)`, used at `_site`: the
initialiser `Base{in_exception_id}` is on line 221 of the header. -/
def ctor_id (cc : Compiler) (_site : source_location) (in_exception_id : ExceptionID) :
    elegant_exception :=
  ⟨elegant_exception_base.ctor_id (header_site cc 221) in_exception_id none⟩

/-- Constructor `elegant_exception(const ExceptionMessage&)`, used at `_site`:
the initialiser `Base{in_exception_msg}` is on line 224 of the header. -/
def ctor_msg (cc : Compiler) (_site : source_location) (in_exception_msg : ExceptionMessage) :
    elegant_exception :=
  ⟨elegant_exception_base.ctor_msg (header_site cc 224) in_exception_msg none⟩

/-- Constructor `elegant_exception(const ExceptionMessageView)`, used at
`_site`: the initialiser `Base{in_exception_msg}` is on line 227 of the header. -/
def ctor_view (cc : Compiler) (_site : source_location)
    (in_exception_msg : ExceptionMessageView) : elegant_exception :=
  ⟨elegant_exception_base.ctor_view (header_site cc 227) in_exception_msg none⟩

/-- Constructor `elegant_exception(ExceptionID, const ExceptionMessageView)`,
used at `_site`: the initialiser `Base{in_exception_id, in_exception_msg}`
starts on line 232 of the header. -/
def ctor_id_view (cc : Compiler) (_site : source_location) (in_exception_id : ExceptionID)
    (in_exception_msg : ExceptionMessageView) : elegant_exception :=
  ⟨elegant_exception_base.ctor_id_view (header_site cc 232) in_exception_id in_exception_msg
    none⟩

/-- Constructor `elegant_exception(ExceptionMessageView, std::source_location)`:
the initialiser (line 240) passes the location on. -/
def ctor_view_loc (cc : Compiler) (_site : source_location)
    (in_exception_msg : ExceptionMessageView) (in_exception_location : source_location) :
    elegant_exception :=
  ⟨elegant_exception_base.ctor_view (header_site cc 240) in_exception_msg
    (some in_exception_location)⟩

/-- Constructor
`elegant_exception(ExceptionID, ExceptionMessageView, std::source_location)`:
the initialiser (line 248) passes the location on. -/
def ctor_id_view_loc (cc : Compiler) (_site : source_location) (in_exception_id : ExceptionID)
    (in_exception_msg : ExceptionMessageView) (in_exception_location : source_location) :
    elegant_exception :=
  ⟨elegant_exception_base.ctor_id_view (header_site cc 248) in_exception_id in_exception_msg
    (some in_exception_location)⟩

/-- Declaration `using Base::what`. -/
def what (self : elegant_exception) : ExceptionMessage := self.toelegant_exception_base.what

/-- Declaration `using Base::id`. -/
def id (self : elegant_exception) : ExceptionID := self.toelegant_exception_base.id

/-- Declaration `using Base::message`. -/
def message (self : elegant_exception) : ExceptionMessageView :=
  self.toelegant_exception_base.message

/-- Declaration `using Base::location`. -/
def location (self : elegant_exception) : ExceptionLocation :=
  self.toelegant_exception_base.location

/-- The implicit copy constructor: it copies the base subobject. -/
def copy (self : elegant_exception) : elegant_exception := ⟨self.toelegant_exception_base.copy⟩

/-- The object after one operation on it (after `copy`: the copy). -/
def after (self : elegant_exception) : Operation → elegant_exception
  | .copy => self.copy
  | _ => self

/-- The values a constructor of the public class produces. -/
inductive Constructed : elegant_exception → Prop
  | ctor (cc : Compiler) (site : source_location) : Constructed (ctor cc site)
  | ctor_id (cc : Compiler) (site : source_location) (c : ExceptionID) :
      Constructed (ctor_id cc site c)
  | ctor_msg (cc : Compiler) (site : source_location) (m : ExceptionMessage) :
      Constructed (ctor_msg cc site m)
  | ctor_view (cc : Compiler) (site : source_location) (m : ExceptionMessageView) :
      Constructed (ctor_view cc site m)
  | ctor_id_view (cc : Compiler) (site : source_location) (c : ExceptionID)
      (m : ExceptionMessageView) : Constructed (ctor_id_view cc site c m)
  | ctor_view_loc (cc : Compiler) (site : source_location) (m : ExceptionMessageView)
      (l : source_location) : Constructed (ctor_view_loc cc site m l)
  | ctor_id_view_loc (cc : Compiler) (site : source_location) (c : ExceptionID)
      (m : ExceptionMessageView) (l : source_location) :
      Constructed (ctor_id_view_loc cc site c m l)

/-- Overload resolution over the constructors the public class declares (the
base constructors are not inherited: there is no `using Base::Base`).  `none`
is an argument list no constructor accepts, which does not compile. -/
def construct (cc : Compiler) (site : source_location) : List Arg → Option elegant_exception
  | [] => some (ctor cc site)
  | [.id c] => some (ctor_id cc site c)
  | [.msg m] => some (ctor_msg cc site m)
  | [.view m] => some (ctor_view cc site m)
  | [.id c, .view m] => some (ctor_id_view cc site c m)
  | [.id c, .msg m] => some (ctor_id_view cc site c m)
  | [.view m, .loc l] => some (ctor_view_loc cc site m l)
  | [.msg m, .loc l] => some (ctor_view_loc cc site m l)
  | [.id c, .view m, .loc l] => some (ctor_id_view_loc cc site c m l)
  | [.id c, .msg m, .loc l] => some (ctor_id_view_loc cc site c m l)
  | _ => none

end elegant_exception

end Debug

end Elegant

/-! ## `include/general_exception.h` -/

namespace General

/-- Method `std::formatter<std::source_location, char>::format` of
`general_exception.h`. -/
def formatter_source_location_format (loc : source_location) : List Byte :=
  std_format (bytes "file name: {}, line: {}, function name: {}")
    [loc.file_name, format_unsigned loc.line, loc.function_name]

/-- Lambda `limit_exception_message` of `general_exception.h`. -/
def limit_exception_message (in_exception_message_view : ExceptionMessageView) :
    ExceptionMessage :=
  if in_exception_message_view.length ≤ max_exception_message_size then
    in_exception_message_view
  else
    (in_exception_message_view.drop 0).take max_exception_message_size

/-! ### `general_exception_base<ReleaseBuildTag>` and the public class in a
build with `RELEASE_BUILD` -/

namespace Release

/-- Class `general_exception_base<ReleaseBuildTag>`: its two data members. -/
structure general_exception_base where
  exception_id : ExceptionID
  exception_message : ExceptionMessage
  deriving DecidableEq, Repr

namespace general_exception_base

/-- Member `format_template`. -/
def format_template : List Byte :=
  bytes "Exception: error_code: {}, error_message: {}"

/-- Constructor `general_exception_base() = default`: the default member
initialisers. -/
def ctor : general_exception_base :=
  { exception_id := ExceptionID_max, exception_message := [] }

/-- Constructor `general_exception_base(ExceptionID)`. -/
def ctor_id (in_exception_id : ExceptionID) : general_exception_base :=
  { exception_id := in_exception_id, exception_message := [] }

/-- Constructor `general_exception_base(const ExceptionMessage&)`. -/
def ctor_msg (in_exception_msg : ExceptionMessage) : general_exception_base :=
  { exception_id := ExceptionID_max
    exception_message := limit_exception_message in_exception_msg }

/-- Constructor `general_exception_base(ExceptionMessageView)`. -/
def ctor_view (in_exception_msg : ExceptionMessageView) : general_exception_base :=
  { exception_id := ExceptionID_max
    exception_message := limit_exception_message in_exception_msg }

/-- Constructor `general_exception_base(ExceptionID, const ExceptionMessage&)`. -/
def ctor_id_msg (in_exception_id : ExceptionID) (in_exception_msg : ExceptionMessage) :
    general_exception_base :=
  { exception_id := in_exception_id
    exception_message := limit_exception_message in_exception_msg }

/-- Constructor `general_exception_base(ExceptionID, ExceptionMessageView)`. -/
def ctor_id_view (in_exception_id : ExceptionID) (in_exception_msg : ExceptionMessageView) :
    general_exception_base :=
  { exception_id := in_exception_id
    exception_message := limit_exception_message in_exception_msg }

/-- Method `what()`. -/
def what (self : general_exception_base) : ExceptionMessage :=
  std_format format_template [format_unsigned self.exception_id, self.exception_message]

/-- Method `id()`. -/
def id (self : general_exception_base) : ExceptionID := self.exception_id

/-- Method `message()`. -/
def message (self : general_exception_base) : ExceptionMessageView := self.exception_message

/-- The implicit copy constructor: member by member. -/
def copy (self : general_exception_base) : general_exception_base :=
  { exception_id := self.exception_id, exception_message := self.exception_message }

/-- The object after one operation on it (after `copy`: the copy).  There is no
`location()` in this specialisation, so that operation cannot be written and
leaves nothing to do. -/
def after (self : general_exception_base) : Operation → general_exception_base
  | .copy => self.copy
  | _ => self

/-- The values a constructor of the class produces. -/
inductive Constructed : general_exception_base → Prop
  | ctor : Constructed ctor
  | ctor_id (c : ExceptionID) : Constructed (ctor_id c)
  | ctor_msg (m : ExceptionMessage) : Constructed (ctor_msg m)
  | ctor_view (m : ExceptionMessageView) : Constructed (ctor_view m)
  | ctor_id_msg (c : ExceptionID) (m : ExceptionMessage) : Constructed (ctor_id_msg c m)
  | ctor_id_view (c : ExceptionID) (m : ExceptionMessageView) : Constructed (ctor_id_view c m)

end general_exception_base

/-- Class `general_exception::general_exception` when `BuildTag` is
`ReleaseBuildTag`: derived from the base, no member of its own. -/
structure general_exception extends general_exception_base
  deriving DecidableEq, Repr

namespace general_exception

/-- Constructor `general_exception() = default`. -/
def ctor : general_exception := ⟨general_exception_base.ctor⟩

/-- Constructor `general_exception(ExceptionID)`: `Base{in_exception_id}`. -/
def ctor_id (in_exception_id : ExceptionID) : general_exception :=
  ⟨general_exception_base.ctor_id in_exception_id⟩

/-- Constructor `general_exception(const ExceptionMessage&)`: `Base{in_exception_msg}`. -/
def ctor_msg (in_exception_msg : ExceptionMessage) : general_exception :=
  ⟨general_exception_base.ctor_msg in_exception_msg⟩

/-- Constructor `general_exception(const ExceptionMessageView)`: `Base{in_exception_msg}`. -/
def ctor_view (in_exception_msg : ExceptionMessageView) : general_exception :=
  ⟨general_exception_base.ctor_view in_exception_msg⟩

/-- Constructor `general_exception(ExceptionID, const ExceptionMessageView)`. -/
def ctor_id_view (in_exception_id : ExceptionID) (in_exception_msg : ExceptionMessageView) :
    general_exception :=
  ⟨general_exception_base.ctor_id_view in_exception_id in_exception_msg⟩

/-- Declaration `using Base::what`. -/
def what (self : general_exception) : ExceptionMessage := self.togeneral_exception_base.what

/-- Declaration `using Base::id`. -/
def id (self : general_exception) : ExceptionID := self.togeneral_exception_base.id

/-- Declaration `using Base::message`. -/
def message (self : general_exception) : ExceptionMessageView :=
  self.togeneral_exception_base.message

/-- The implicit copy constructor: it copies the base subobject. -/
def copy (self : general_exception) : general_exception := ⟨self.togeneral_exception_base.copy⟩

/-- The object after one operation on it (after `copy`: the copy). -/
def after (self : general_exception) : Operation → general_exception
  | .copy => self.copy
  | _ => self

/-- The values a constructor of the public class produces. -/
inductive Constructed : general_exception → Prop
  | ctor : Constructed ctor
  | ctor_id (c : ExceptionID) : Constructed (ctor_id c)
  | ctor_msg (m : ExceptionMessage) : Constructed (ctor_msg m)
  | ctor_view (m : ExceptionMessageView) : Constructed (ctor_view m)
  | ctor_id_view (c : ExceptionID) (m : ExceptionMessageView) : Constructed (ctor_id_view c m)

end general_exception

end Release

/-! ### `general_exception_base<DebugBuildTag>` and the public class in a
build without `RELEASE_BUILD` -/

namespace Debug

/-- Class `general_exception_base<DebugBuildTag>`: its three data members. -/
structure general_exception_base where
  exception_id : ExceptionID
  exception_message : ExceptionMessage
  exception_location : ExceptionLocation
  deriving DecidableEq, Repr

namespace general_exception_base

/-- Member `format_template`. -/
def format_template : List Byte :=
  bytes "Exception: error_code: {}, error_message: {}, {}"

/-- Member `loc_format_string`. -/
def loc_format_string : List Byte := bytes "{}"

/-- Constructor `general_exception_base(std::source_location = current())`,
invoked at `site`; `none` is an invocation that leaves the location out. -/
def ctor (site : source_location) (in_exception_location : Option source_location) :
    general_exception_base :=
  { exception_id := ExceptionID_max
    exception_message := []
    exception_location := in_exception_location.getD (source_location.current site) }

/-- Constructor `general_exception_base(ExceptionID, std::source_location = current())`. -/
def ctor_id (site : source_location) (in_exception_id : ExceptionID)
    (in_exception_location : Option source_location) : general_exception_base :=
  { exception_id := in_exception_id
    exception_message := []
    exception_location := in_exception_location.getD (source_location.current site) }

/-- Constructor
`general_exception_base(const ExceptionMessage&, std::source_location = current())`. -/
def ctor_msg (site : source_location) (in_exception_msg : ExceptionMessage)
    (in_exception_location : Option source_location) : general_exception_base :=
  { exception_id := ExceptionID_max
    exception_message := limit_exception_message in_exception_msg
    exception_location := in_exception_location.getD (source_location.current site) }

/-- Constructor
`general_exception_base(const ExceptionMessageView, std::source_location = current())`. -/
def ctor_view (site : source_location) (in_exception_msg : ExceptionMessageView)
    (in_exception_location : Option source_location) : general_exception_base :=
  { exception_id := ExceptionID_max
    exception_message := limit_exception_message in_exception_msg
    exception_location := in_exception_location.getD (source_location.current site) }

/-- Constructor `general_exception_base(ExceptionID, const ExceptionMessage&,
std::source_location = current())`. -/
def ctor_id_msg (site : source_location) (in_exception_id : ExceptionID)
    (in_exception_msg : ExceptionMessage) (in_exception_location : Option source_location) :
    general_exception_base :=
  { exception_id := in_exception_id
    exception_message := limit_exception_message in_exception_msg
    exception_location := in_exception_location.getD (source_location.current site) }

/-- Constructor `general_exception_base(ExceptionID, const ExceptionMessageView,
std::source_location = current())`. -/
def ctor_id_view (site : source_location) (in_exception_id : ExceptionID)
    (in_exception_msg : ExceptionMessageView) (in_exception_location : Option source_location) :
    general_exception_base :=
  { exception_id := in_exception_id
    exception_message := limit_exception_message in_exception_msg
    exception_location := in_exception_location.getD (source_location.current site) }

/-- Method `what()`: the location is first rendered by
`std::format(loc_format_string, exception_location)`, through the formatter
of the header, and the text is the third argument of the outer call. -/
def what (self : general_exception_base) : ExceptionMessage :=
  std_format format_template
    [format_unsigned self.exception_id, self.exception_message,
     std_format loc_format_string
       [formatter_source_location_format self.exception_location]]

/-- Method `id()`. -/
def id (self : general_exception_base) : ExceptionID := self.exception_id

/-- Method `message()`. -/
def message (self : general_exception_base) : ExceptionMessageView := self.exception_message

/-- Method `location()`. -/
def location (self : general_exception_base) : ExceptionLocation := self.exception_location

/-- The implicit copy constructor: member by member. -/
def copy (self : general_exception_base) : general_exception_base :=
  { exception_id := self.exception_id
    exception_message := self.exception_message
    exception_location := self.exception_location }

/-- The object after one operation on it (after `copy`: the copy). -/
def after (self : general_exception_base) : Operation → general_exception_base
  | .copy => self.copy
  | _ => self

/-- The values a constructor of the class produces. -/
inductive Constructed : general_exception_base → Prop
  | ctor (site : source_location) (l : Option source_location) : Constructed (ctor site l)
  | ctor_id (site : source_location) (c : ExceptionID) (l : Option source_location) :
      Constructed (ctor_id site c l)
  | ctor_msg (site : source_location) (m : ExceptionMessage) (l : Option source_location) :
      Constructed (ctor_msg site m l)
  | ctor_view (site : source_location) (m : ExceptionMessageView)
      (l : Option source_location) : Constructed (ctor_view site m l)
  | ctor_id_msg (site : source_location) (c : ExceptionID) (m : ExceptionMessage)
      (l : Option source_location) : Constructed (ctor_id_msg site c m l)
  | ctor_id_view (site : source_location) (c : ExceptionID) (m : ExceptionMessageView)
      (l : Option source_location) : Constructed (ctor_id_view site c m l)

end general_exception_base

/-- Class `general_exception::general_exception` when `BuildTag` is
`DebugBuildTag`: derived from the base, no member of its own. -/
structure general_exception extends general_exception_base
  deriving DecidableEq, Repr

namespace general_exception

/-- Constructor `general_exception() = default` (line 217), used at `_site`:
the base is default-initialised from inside the defaulted constructor, and
the position of the use is not handed on. -/
def ctor (cc : Compiler) (_site : source_location) : general_exception :=
  ⟨general_exception_base.ctor (header_site cc 217) none⟩

/-- Constructor `general_exception(ExceptionID)`, used at `_site`: the
initialiser `Base{in_exception_id}` is on line 220 of the header. -/
def ctor_id (cc : Compiler) (_site : source_location) (in_exception_id : ExceptionID) :
    general_exception :=
  ⟨general_exception_base.ctor_id (header_site cc 220) in_exception_id none⟩

/-- Constructor `general_exception(const ExceptionMessage&)`, used at `_site`:
the initialiser `Base{in_exception_msg}` is on line 223 of the header. -/
def ctor_msg (cc : Compiler) (_site : source_location) (in_exception_msg : ExceptionMessage) :
    general_exception :=
  ⟨general_exception_base.ctor_msg (header_site cc 223) in_exception_msg none⟩

/-- Constructor `general_exception(const ExceptionMessageView)`, used at
`_site`: the initialiser `Base{in_exception_msg}` is on line 226 of the header. -/
def ctor_view (cc : Compiler) (_site : source_location)
    (in_exception_msg : ExceptionMessageView) : general_exception :=
  ⟨general_exception_base.ctor_view (header_site cc 226) in_exception_msg none⟩

/-- Constructor `general_exception(ExceptionID, const ExceptionMessageView)`,
used at `_site`: the initialiser `Base{in_exception_id, in_exception_msg}`
starts on line 231 of the header. -/
def ctor_id_view (cc : Compiler) (_site : source_location) (in_exception_id : ExceptionID)
    (in_exception_msg : ExceptionMessageView) : general_exception :=
  ⟨general_exception_base.ctor_id_view (header_site cc 231) in_exception_id in_exception_msg
    none⟩

/-- Constructor `general_exception(ExceptionMessageView, std::source_location)`:
the initialiser (line 239) passes the location on. -/
def ctor_view_loc (cc : Compiler) (_site : source_location)
    (in_exception_msg : ExceptionMessageView) (in_exception_location : source_location) :
    general_exception :=
  ⟨general_exception_base.ctor_view (header_site cc 239) in_exception_msg
    (some in_exception_location)⟩

/-- Constructor
`general_exception(ExceptionID, ExceptionMessageView, std::source_location)`:
the initialiser (line 247) passes the location on. -/
def ctor_id_view_loc (cc : Compiler) (_site : source_location) (in_exception_id : ExceptionID)
    (in_exception_msg : ExceptionMessageView) (in_exception_location : source_location) :
    general_exception :=
  ⟨general_exception_base.ctor_id_view (header_site cc 247) in_exception_id in_exception_msg
    (some in_exception_location)⟩

/-- Declaration `using Base::what`. -/
def what (self : general_exception) : ExceptionMessage := self.togeneral_exception_base.what

/-- Declaration `using Base::id`. -/
def id (self : general_exception) : ExceptionID := self.togeneral_exception_base.id

/-- Declaration `using Base::message`. -/
def message (self : general_exception) : ExceptionMessageView :=
  self.togeneral_exception_base.message

/-- Declaration `using Base::location`. -/
def location (self : general_exception) : ExceptionLocation :=
  self.togeneral_exception_base.location

/-- The implicit copy constructor: it copies the base subobject. -/
def copy (self : general_exception) : general_exception := ⟨self.togeneral_exception_base.copy⟩

/-- The object after one operation on it (after `copy`: the copy). -/
def after (self : general_exception) : Operation → general_exception
  | .copy => self.copy
  | _ => self

/-- The values a constructor of the public class produces. -/
inductive Constructed : general_exception → Prop
  | ctor (cc : Compiler) (site : source_location) : Constructed (ctor cc site)
  | ctor_id (cc : Compiler) (site : source_location) (c : ExceptionID) :
      Constructed (ctor_id cc site c)
  | ctor_msg (cc : Compiler) (site : source_location) (m : ExceptionMessage) :
      Constructed (ctor_msg cc site m)
  | ctor_view (cc : Compiler) (site : source_location) (m : ExceptionMessageView) :
      Constructed (ctor_view cc site m)
  | ctor_id_view (cc : Compiler) (site : source_location) (c : ExceptionID)
      (m : ExceptionMessageView) : Constructed (ctor_id_view cc site c m)
  | ctor_view_loc (cc : Compiler) (site : source_location) (m : ExceptionMessageView)
      (l : source_location) : Constructed (ctor_view_loc cc site m l)
  | ctor_id_view_loc (cc : Compiler) (site : source_location) (c : ExceptionID)
      (m : ExceptionMessageView) (l : source_location) :
      Constructed (ctor_id_view_loc cc site c m l)

/-- Overload resolution over the constructors the public class declares (the
base constructors are not inherited: there is no `using Base::Base`).  `none`
is an argument list no constructor accepts, which does not compile. -/
def construct (cc : Compiler) (site : source_location) : List Arg → Option general_exception
  | [] => some (ctor cc site)
  | [.id c] => some (ctor_id cc site c)
  | [.msg m] => some (ctor_msg cc site m)
  | [.view m] => some (ctor_view cc site m)
  | [.id c, .view m] => some (ctor_id_view cc site c m)
  | [.id c, .msg m] => some (ctor_id_view cc site c m)
  | [.view m, .loc l] => some (ctor_view_loc cc site m l)
  | [.msg m, .loc l] => some (ctor_view_loc cc site m l)
  | [.id c, .view m, .loc l] => some (ctor_id_view_loc cc site c m l)
  | [.id c, .msg m, .loc l] => some (ctor_id_view_loc cc site c m l)
  | _ => none

end general_exception

end Debug

end General

end Exc

/-! ## Properties -/

namespace Exc

/-- The stored message in the words of the specification: the input unchanged
when it has at most 256 bytes, its first 256 bytes otherwise. -/
def stored_message (m : List Byte) : List Byte :=
  if m.length ≤ 256 then m else m.take 256

/-- Overload resolution over the constructors of
`elegant_exception_base<ReleaseBuildTag>`, for a construction expression at
`_site`.  The specialisation is declared in every build of the header and is
constructed directly here, in a build in which the header compiles (one
without `NDEBUG`; with `NDEBUG` the header is rejected at line 146, where
`ExceptionLocation` is not declared).  No constructor has a location
parameter or a default argument, so the position of the expression reaches
none of them; `none` is an argument list no constructor accepts. -/
def Elegant.Release.elegant_exception_base.construct (_site : source_location) :
    List Arg → Option Elegant.Release.elegant_exception_base
  | [] => some Elegant.Release.elegant_exception_base.ctor
  | [.id c] => some (Elegant.Release.elegant_exception_base.ctor_id c)
  | [.msg m] => some (Elegant.Release.elegant_exception_base.ctor_msg m)
  | [.view m] => some (Elegant.Release.elegant_exception_base.ctor_view m)
  | [.id c, .msg m] => some (Elegant.Release.elegant_exception_base.ctor_id_msg c m)
  | [.id c, .view m] => some (Elegant.Release.elegant_exception_base.ctor_id_view c m)
  | _ => none

/-- Overload resolution over the constructors of
`general_exception_base<ReleaseBuildTag>`, for a construction expression at
`_site`, in a build in which the header compiles (one without
`RELEASE_BUILD`; with it the header is rejected at line 145, where
`ExceptionLocation` is not declared). -/
def General.Release.general_exception_base.construct (_site : source_location) :
    List Arg → Option General.Release.general_exception_base
  | [] => some General.Release.general_exception_base.ctor
  | [.id c] => some (General.Release.general_exception_base.ctor_id c)
  | [.msg m] => some (General.Release.general_exception_base.ctor_msg m)
  | [.view m] => some (General.Release.general_exception_base.ctor_view m)
  | [.id c, .msg m] => some (General.Release.general_exception_base.ctor_id_msg c m)
  | [.id c, .view m] => some (General.Release.general_exception_base.ctor_id_view c m)
  | _ => none

/-- The number a run of decimal digit bytes denotes, most significant digit
first. -/
def decimal_value (ds : List Byte) : Nat :=
  ds.foldl (fun acc b => acc * 10 + (b.toNat - 48)) 0

/-- States of the recogniser of well-formed UTF-8 (Unicode Standard, table
"Well-Formed UTF-8 Byte Sequences"): between characters, or inside one with
the given bytes still to come. -/
inductive Utf8State where
  /-- Between two characters. -/
  | start
  /-- One continuation byte `80..BF` to come. -/
  | tail1
  /-- Two continuation bytes `80..BF` to come. -/
  | tail2
  /-- Three continuation bytes `80..BF` to come. -/
  | tail3
  /-- After `E0`: a byte `A0..BF`, then one continuation byte. -/
  | afterE0
  /-- After `ED`: a byte `80..9F`, then one continuation byte. -/
  | afterED
  /-- After `F0`: a byte `90..BF`, then two continuation bytes. -/
  | afterF0
  /-- After `F4`: a byte `80..8F`, then two continuation bytes. -/
  | afterF4
  deriving DecidableEq, Repr

/-- One byte of the recogniser; `none` is an ill-formed sequence. -/
def utf8_step : Utf8State → Byte → Option Utf8State
  | .start, b =>
    if b ≤ 0x7F then some .start
    else if 0xC2 ≤ b ∧ b ≤ 0xDF then some .tail1
    else if b = 0xE0 then some .afterE0
    else if (0xE1 ≤ b ∧ b ≤ 0xEC) ∨ (0xEE ≤ b ∧ b ≤ 0xEF) then some .tail2
    else if b = 0xED then some .afterED
    else if b = 0xF0 then some .afterF0
    else if 0xF1 ≤ b ∧ b ≤ 0xF3 then some .tail3
    else if b = 0xF4 then some .afterF4
    else none
  | .tail1, b => if 0x80 ≤ b ∧ b ≤ 0xBF then some .start else none
  | .tail2, b => if 0x80 ≤ b ∧ b ≤ 0xBF then some .tail1 else none
  | .tail3, b => if 0x80 ≤ b ∧ b ≤ 0xBF then some .tail2 else none
  | .afterE0, b => if 0xA0 ≤ b ∧ b ≤ 0xBF then some .tail1 else none
  | .afterED, b => if 0x80 ≤ b ∧ b ≤ 0x9F then some .tail1 else none
  | .afterF0, b => if 0x90 ≤ b ∧ b ≤ 0xBF then some .tail2 else none
  | .afterF4, b => if 0x80 ≤ b ∧ b ≤ 0x8F then some .tail2 else none

/-- The recogniser run over a byte string from a state. -/
def utf8_run : Utf8State → List Byte → Option Utf8State
  | s, [] => some s
  | s, b :: rest =>
    match utf8_step s b with
    | none => none
    | some t => utf8_run t rest

/-- A byte string is well-formed UTF-8 when the recogniser accepts every byte
and ends between two characters. -/
def utf8_well_formed (m : List Byte) : Prop := utf8_run .start m = some .start

instance (m : List Byte) : Decidable (utf8_well_formed m) := by
  unfold utf8_well_formed
  infer_instance

/-! ### Truncation -/

theorem elegant_limit_exception_message_eq (m : List Byte) :
    Elegant.limit_exception_message m = stored_message m := by
  simp [Elegant.limit_exception_message, stored_message, max_exception_message_size]

theorem general_limit_exception_message_eq (m : List Byte) :
    General.limit_exception_message m = stored_message m := by
  simp [General.limit_exception_message, stored_message, max_exception_message_size]

theorem stored_message_eq_take (m : List Byte) : stored_message m = m.take 256 := by
  unfold stored_message
  split
  · rw [List.take_of_length_le (by assumption)]
  · rfl

theorem stored_message_length_le (m : List Byte) : (stored_message m).length ≤ 256 := by
  rw [stored_message_eq_take, List.length_take]
  exact Nat.min_le_left _ _

/-! ### `std::format` on a template -/

theorem std_format_text (t : List Byte) (args : List (List Byte))
    (h : ∀ b ∈ t, b ≠ 123) : std_format t args = t := by
  induction t with
  | nil => simp [std_format]
  | cons c t ih =>
    have hc : c ≠ 123 := h c (by simp)
    have ht : ∀ b ∈ t, b ≠ 123 := fun b hb => h b (by simp [hb])
    cases t with
    | nil => simp [std_format]
    | cons d t2 =>
      rw [std_format.eq_def]
      simp only [hc, false_and, if_false]
      rw [ih ht]

theorem std_format_field (t rest a : List Byte) (args : List (List Byte))
    (h : ∀ b ∈ t, b ≠ 123) :
    std_format (t ++ 123 :: 125 :: rest) (a :: args) = t ++ (a ++ std_format rest args) := by
  induction t with
  | nil => simp [std_format]
  | cons c t ih =>
    have hc : c ≠ 123 := h c (by simp)
    have ht : ∀ b ∈ t, b ≠ 123 := fun b hb => h b (by simp [hb])
    cases t with
    | nil =>
      simp [std_format, hc]
    | cons d t2 =>
      have h2 := ih ht
      simp only [List.cons_append] at h2 ⊢
      rw [std_format.eq_def]
      simp only [hc, false_and, if_false]
      rw [h2]

/-- The production template: the code and the message in their places. -/
theorem release_template_format (code msg : List Byte) :
    std_format (bytes "Exception: error_code: {}, error_message: {}") [code, msg]
      = bytes "Exception: error_code: " ++ code ++ bytes ", error_message: " ++ msg := by
  have ht : bytes "Exception: error_code: {}, error_message: {}"
      = bytes "Exception: error_code: " ++ 123 :: 125 :: (bytes ", error_message: "
          ++ 123 :: 125 :: []) := by decide
  rw [ht, std_format_field _ _ _ _ (by decide), std_format_field _ _ _ _ (by decide)]
  simp [std_format]

/-- The diagnostic template: the code, the message and the rendered location
in their places. -/
theorem debug_template_format (code msg loc : List Byte) :
    std_format (bytes "Exception: error_code: {}, error_message: {}, {}") [code, msg, loc]
      = bytes "Exception: error_code: " ++ code ++ bytes ", error_message: " ++ msg
          ++ bytes ", " ++ loc := by
  have ht : bytes "Exception: error_code: {}, error_message: {}, {}"
      = bytes "Exception: error_code: " ++ 123 :: 125 :: (bytes ", error_message: "
          ++ 123 :: 125 :: (bytes ", " ++ 123 :: 125 :: [])) := by decide
  rw [ht, std_format_field _ _ _ _ (by decide), std_format_field _ _ _ _ (by decide),
    std_format_field _ _ _ _ (by decide)]
  simp [std_format]

/-- The template `"{}"` renders its argument and nothing else. -/
theorem single_field_format (a : List Byte) : std_format (bytes "{}") [a] = a := by
  have ht : bytes "{}" = [] ++ 123 :: 125 :: [] := by decide
  rw [ht, std_format_field _ _ _ _ (by decide)]
  simp [std_format]

/-- The location formatter of `elegant_exception.h`: file, function, line. -/
theorem elegant_location_format_eq (loc : source_location) :
    Elegant.formatter_source_location_format loc
      = bytes "file name: " ++ loc.file_name ++ bytes ", function name: "
          ++ loc.function_name ++ bytes ", line: " ++ format_unsigned loc.line := by
  have ht : bytes "file name: {}, function name: {}, line: {}"
      = bytes "file name: " ++ 123 :: 125 :: (bytes ", function name: "
          ++ 123 :: 125 :: (bytes ", line: " ++ 123 :: 125 :: [])) := by decide
  unfold Elegant.formatter_source_location_format
  rw [ht, std_format_field _ _ _ _ (by decide), std_format_field _ _ _ _ (by decide),
    std_format_field _ _ _ _ (by decide)]
  simp [std_format]

/-- The location formatter of `general_exception.h`: file, line, function. -/
theorem general_location_format_eq (loc : source_location) :
    General.formatter_source_location_format loc
      = bytes "file name: " ++ loc.file_name ++ bytes ", line: "
          ++ format_unsigned loc.line ++ bytes ", function name: " ++ loc.function_name := by
  have ht : bytes "file name: {}, line: {}, function name: {}"
      = bytes "file name: " ++ 123 :: 125 :: (bytes ", line: "
          ++ 123 :: 125 :: (bytes ", function name: " ++ 123 :: 125 :: [])) := by decide
  unfold General.formatter_source_location_format
  rw [ht, std_format_field _ _ _ _ (by decide), std_format_field _ _ _ _ (by decide),
    std_format_field _ _ _ _ (by decide)]
  simp [std_format]

/-! ### The decimal rendering -/

theorem digitChar_byte (k : Nat) (h : k < 10) :
    UInt8.ofNat (Nat.digitChar k).toNat = UInt8.ofNat (48 + k) := by
  interval_cases k <;> rfl

theorem to_chars_aux_toDigitsCore (fuel : Nat) :
    ∀ (n : Nat) (ds : List Char), n < fuel →
      (Nat.toDigitsCore 10 fuel n ds).map (fun c => UInt8.ofNat c.toNat)
        = to_chars_aux fuel n ++ ds.map (fun c => UInt8.ofNat c.toNat) := by
  induction fuel with
  | zero => intro n ds h; omega
  | succ fuel ih =>
    intro n ds h
    rw [Nat.toDigitsCore, to_chars_aux]
    by_cases hn : n < 10
    · have h0 : n / 10 = 0 := by omega
      have hm : n % 10 = n := by omega
      simp only [h0, hm, hn, if_true, List.map_cons, List.singleton_append]
      rw [digitChar_byte n hn]
    · have h0 : n / 10 ≠ 0 := by omega
      have hlt : n / 10 < fuel := by omega
      simp only [h0, hn, if_false]
      rw [ih (n / 10) _ hlt, List.map_cons, digitChar_byte (n % 10) (by omega)]
      simp

/-- The rendering of a code is its decimal numeral. -/
theorem format_unsigned_eq_repr (n : Nat) : format_unsigned n = bytes (Nat.repr n) := by
  have h := to_chars_aux_toDigitsCore (n + 1) n [] (by omega)
  simp only [List.map_nil, List.append_nil] at h
  unfold format_unsigned bytes
  rw [← h]
  rfl

/-! ### No operation changes the value -/

theorem after_eq_elegant_release_base (e : Elegant.Release.elegant_exception_base)
    (op : Operation) : e.after op = e := by
  cases op <;> rfl

theorem foldl_after_elegant_release_base (e : Elegant.Release.elegant_exception_base)
    (ops : List Operation) :
    ops.foldl Elegant.Release.elegant_exception_base.after e = e :=
  List.foldl_fixed' (fun op => after_eq_elegant_release_base e op) ops

theorem after_eq_elegant_release_public (e : Elegant.Release.elegant_exception)
    (op : Operation) : e.after op = e := by
  cases op <;> rfl

theorem foldl_after_elegant_release_public (e : Elegant.Release.elegant_exception)
    (ops : List Operation) :
    ops.foldl Elegant.Release.elegant_exception.after e = e :=
  List.foldl_fixed' (fun op => after_eq_elegant_release_public e op) ops

theorem after_eq_elegant_debug_base (e : Elegant.Debug.elegant_exception_base)
    (op : Operation) : e.after op = e := by
  cases op <;> rfl

theorem foldl_after_elegant_debug_base (e : Elegant.Debug.elegant_exception_base)
    (ops : List Operation) :
    ops.foldl Elegant.Debug.elegant_exception_base.after e = e :=
  List.foldl_fixed' (fun op => after_eq_elegant_debug_base e op) ops

theorem after_eq_elegant_debug_public (e : Elegant.Debug.elegant_exception)
    (op : Operation) : e.after op = e := by
  cases op <;> rfl

theorem foldl_after_elegant_debug_public (e : Elegant.Debug.elegant_exception)
    (ops : List Operation) :
    ops.foldl Elegant.Debug.elegant_exception.after e = e :=
  List.foldl_fixed' (fun op => after_eq_elegant_debug_public e op) ops

theorem after_eq_general_release_base (e : General.Release.general_exception_base)
    (op : Operation) : e.after op = e := by
  cases op <;> rfl

theorem foldl_after_general_release_base (e : General.Release.general_exception_base)
    (ops : List Operation) :
    ops.foldl General.Release.general_exception_base.after e = e :=
  List.foldl_fixed' (fun op => after_eq_general_release_base e op) ops

theorem after_eq_general_release_public (e : General.Release.general_exception)
    (op : Operation) : e.after op = e := by
  cases op <;> rfl

theorem foldl_after_general_release_public (e : General.Release.general_exception)
    (ops : List Operation) :
    ops.foldl General.Release.general_exception.after e = e :=
  List.foldl_fixed' (fun op => after_eq_general_release_public e op) ops

theorem after_eq_general_debug_base (e : General.Debug.general_exception_base)
    (op : Operation) : e.after op = e := by
  cases op <;> rfl

theorem foldl_after_general_debug_base (e : General.Debug.general_exception_base)
    (ops : List Operation) :
    ops.foldl General.Debug.general_exception_base.after e = e :=
  List.foldl_fixed' (fun op => after_eq_general_debug_base e op) ops

theorem after_eq_general_debug_public (e : General.Debug.general_exception)
    (op : Operation) : e.after op = e := by
  cases op <;> rfl

theorem foldl_after_general_debug_public (e : General.Debug.general_exception)
    (ops : List Operation) :
    ops.foldl General.Debug.general_exception.after e = e :=
  List.foldl_fixed' (fun op => after_eq_general_debug_public e op) ops

/-! ### The stored message of a constructed value -/

theorem message_length_le_elegant_release_base {e : Elegant.Release.elegant_exception_base}
    (h : Elegant.Release.elegant_exception_base.Constructed e) : e.message.length ≤ 256 := by
  cases h <;>
    first
    | exact Nat.zero_le _
    | exact stored_message_length_le _

theorem message_length_le_elegant_release_public {e : Elegant.Release.elegant_exception}
    (h : Elegant.Release.elegant_exception.Constructed e) : e.message.length ≤ 256 := by
  cases h <;>
    first
    | exact Nat.zero_le _
    | exact stored_message_length_le _

theorem message_length_le_elegant_debug_base {e : Elegant.Debug.elegant_exception_base}
    (h : Elegant.Debug.elegant_exception_base.Constructed e) : e.message.length ≤ 256 := by
  cases h <;>
    first
    | exact Nat.zero_le _
    | exact stored_message_length_le _

theorem message_length_le_elegant_debug_public {e : Elegant.Debug.elegant_exception}
    (h : Elegant.Debug.elegant_exception.Constructed e) : e.message.length ≤ 256 := by
  cases h <;>
    first
    | exact Nat.zero_le _
    | exact stored_message_length_le _

theorem message_length_le_general_release_base {e : General.Release.general_exception_base}
    (h : General.Release.general_exception_base.Constructed e) : e.message.length ≤ 256 := by
  cases h <;>
    first
    | exact Nat.zero_le _
    | exact stored_message_length_le _

theorem message_length_le_general_release_public {e : General.Release.general_exception}
    (h : General.Release.general_exception.Constructed e) : e.message.length ≤ 256 := by
  cases h <;>
    first
    | exact Nat.zero_le _
    | exact stored_message_length_le _

theorem message_length_le_general_debug_base {e : General.Debug.general_exception_base}
    (h : General.Debug.general_exception_base.Constructed e) : e.message.length ≤ 256 := by
  cases h <;>
    first
    | exact Nat.zero_le _
    | exact stored_message_length_le _

theorem message_length_le_general_debug_public {e : General.Debug.general_exception}
    (h : General.Debug.general_exception.Constructed e) : e.message.length ≤ 256 := by
  cases h <;>
    first
    | exact Nat.zero_le _
    | exact stored_message_length_le _

/-! ### Claims -/

/-- Claim C1.  Every constructor that takes a message, in both build modes and
in both headers, stores the message unchanged when it has at most 256 bytes
and its first 256 bytes otherwise; a 256-byte message is stored unchanged, a
257-byte message is cut to its first 256 bytes, the empty message stays empty. -/
theorem message_is_input_cut_at_256 (m : List Byte) (c : ExceptionID) (cc : Compiler)
    (site loc : source_location) (l : Option source_location) :
    (m.length = 256 → (Elegant.Release.elegant_exception.ctor_view m).message = m)
    ∧ (m.length = 257 → (Elegant.Release.elegant_exception.ctor_view m).message = m.take 256)
    ∧ (Elegant.Release.elegant_exception.ctor_view []).message = []
    ∧ (Elegant.Release.elegant_exception_base.ctor_msg m).message = stored_message m
    ∧ (Elegant.Release.elegant_exception_base.ctor_view m).message = stored_message m
    ∧ (Elegant.Release.elegant_exception_base.ctor_id_msg c m).message = stored_message m
    ∧ (Elegant.Release.elegant_exception_base.ctor_id_view c m).message = stored_message m
    ∧ (Elegant.Release.elegant_exception.ctor_msg m).message = stored_message m
    ∧ (Elegant.Release.elegant_exception.ctor_view m).message = stored_message m
    ∧ (Elegant.Release.elegant_exception.ctor_id_view c m).message = stored_message m
    ∧ (Elegant.Debug.elegant_exception_base.ctor_msg site m l).message = stored_message m
    ∧ (Elegant.Debug.elegant_exception_base.ctor_view site m l).message = stored_message m
    ∧ (Elegant.Debug.elegant_exception_base.ctor_id_msg site c m l).message = stored_message m
    ∧ (Elegant.Debug.elegant_exception_base.ctor_id_view site c m l).message = stored_message m
    ∧ (Elegant.Debug.elegant_exception.ctor_msg cc site m).message = stored_message m
    ∧ (Elegant.Debug.elegant_exception.ctor_view cc site m).message = stored_message m
    ∧ (Elegant.Debug.elegant_exception.ctor_id_view cc site c m).message = stored_message m
    ∧ (Elegant.Debug.elegant_exception.ctor_view_loc cc site m loc).message = stored_message m
    ∧ (Elegant.Debug.elegant_exception.ctor_id_view_loc cc site c m loc).message = stored_message m
    ∧ (General.Release.general_exception_base.ctor_msg m).message = stored_message m
    ∧ (General.Release.general_exception_base.ctor_view m).message = stored_message m
    ∧ (General.Release.general_exception_base.ctor_id_msg c m).message = stored_message m
    ∧ (General.Release.general_exception_base.ctor_id_view c m).message = stored_message m
    ∧ (General.Release.general_exception.ctor_msg m).message = stored_message m
    ∧ (General.Release.general_exception.ctor_view m).message = stored_message m
    ∧ (General.Release.general_exception.ctor_id_view c m).message = stored_message m
    ∧ (General.Debug.general_exception_base.ctor_msg site m l).message = stored_message m
    ∧ (General.Debug.general_exception_base.ctor_view site m l).message = stored_message m
    ∧ (General.Debug.general_exception_base.ctor_id_msg site c m l).message = stored_message m
    ∧ (General.Debug.general_exception_base.ctor_id_view site c m l).message = stored_message m
    ∧ (General.Debug.general_exception.ctor_msg cc site m).message = stored_message m
    ∧ (General.Debug.general_exception.ctor_view cc site m).message = stored_message m
    ∧ (General.Debug.general_exception.ctor_id_view cc site c m).message = stored_message m
    ∧ (General.Debug.general_exception.ctor_view_loc cc site m loc).message = stored_message m
    ∧ (General.Debug.general_exception.ctor_id_view_loc cc site c m loc).message = stored_message
        m := by
  have hE := elegant_limit_exception_message_eq
  refine ⟨fun h => ?_, fun h => ?_, ?_, ?_⟩
  · refine (hE m).trans ?_
    rw [stored_message, if_pos (by omega)]
  · refine (hE m).trans ?_
    rw [stored_message, if_neg (by omega)]
  · rfl
  · repeat' constructor

/-- Claim C1 at a 256-byte and at a 257-byte message. -/
theorem message_is_input_cut_at_256_witness :
    (Elegant.Release.elegant_exception.ctor_view (List.replicate 256 65)).message
        = List.replicate 256 65
    ∧ (Elegant.Release.elegant_exception.ctor_view (List.replicate 257 65)).message
        = (List.replicate 257 65).take 256 :=
  ⟨(message_is_input_cut_at_256 (List.replicate 256 65) 0 ⟨[], fun _ => [], fun _ => 0⟩
      ⟨[], [], 0, 0⟩ ⟨[], [], 0, 0⟩ none).1 (List.length_replicate 256 65),
   (message_is_input_cut_at_256 (List.replicate 257 65) 0 ⟨[], fun _ => [], fun _ => 0⟩
      ⟨[], [], 0, 0⟩ ⟨[], [], 0, 0⟩ none).2.1 (List.length_replicate 257 65)⟩


/-- Claim C2.  Invariant I1: the message of a value produced by any constructor
of the base classes and of the public classes, in both build modes and both
headers, has at most 256 bytes, and it still has after any sequence of
operations on the value. -/
theorem message_length_invariant (ops : List Operation)
    (e1 : Elegant.Release.elegant_exception_base) (h1 :
        Elegant.Release.elegant_exception_base.Constructed e1)
    (e2 : Elegant.Release.elegant_exception) (h2 : Elegant.Release.elegant_exception.Constructed e2)
    (e3 : Elegant.Debug.elegant_exception_base) (h3 :
        Elegant.Debug.elegant_exception_base.Constructed e3)
    (e4 : Elegant.Debug.elegant_exception) (h4 : Elegant.Debug.elegant_exception.Constructed e4)
    (e5 : General.Release.general_exception_base) (h5 :
        General.Release.general_exception_base.Constructed e5)
    (e6 : General.Release.general_exception) (h6 : General.Release.general_exception.Constructed e6)
    (e7 : General.Debug.general_exception_base) (h7 :
        General.Debug.general_exception_base.Constructed e7)
    (e8 : General.Debug.general_exception) (h8 : General.Debug.general_exception.Constructed e8) :
    (ops.foldl Elegant.Release.elegant_exception_base.after e1).message.length ≤ 256
    ∧ (ops.foldl Elegant.Release.elegant_exception.after e2).message.length ≤ 256
    ∧ (ops.foldl Elegant.Debug.elegant_exception_base.after e3).message.length ≤ 256
    ∧ (ops.foldl Elegant.Debug.elegant_exception.after e4).message.length ≤ 256
    ∧ (ops.foldl General.Release.general_exception_base.after e5).message.length ≤ 256
    ∧ (ops.foldl General.Release.general_exception.after e6).message.length ≤ 256
    ∧ (ops.foldl General.Debug.general_exception_base.after e7).message.length ≤ 256
    ∧ (ops.foldl General.Debug.general_exception.after e8).message.length ≤ 256 := by
  refine ⟨?_, ?_, ?_, ?_, ?_, ?_, ?_, ?_⟩
  · rw [foldl_after_elegant_release_base]; exact message_length_le_elegant_release_base h1
  · rw [foldl_after_elegant_release_public]; exact message_length_le_elegant_release_public h2
  · rw [foldl_after_elegant_debug_base]; exact message_length_le_elegant_debug_base h3
  · rw [foldl_after_elegant_debug_public]; exact message_length_le_elegant_debug_public h4
  · rw [foldl_after_general_release_base]; exact message_length_le_general_release_base h5
  · rw [foldl_after_general_release_public]; exact message_length_le_general_release_public h6
  · rw [foldl_after_general_debug_base]; exact message_length_le_general_debug_base h7
  · rw [foldl_after_general_debug_public]; exact message_length_le_general_debug_public h8

/-- Claim C2 at a 300-byte message and three operations. -/
theorem message_length_invariant_witness :
    ([Operation.what, Operation.copy, Operation.message].foldl
        Elegant.Release.elegant_exception_base.after
        (Elegant.Release.elegant_exception_base.ctor_view
            (List.replicate 300 65))).message.length ≤ 256
    ∧ ([Operation.what, Operation.copy, Operation.message].foldl
        Elegant.Release.elegant_exception.after
        (Elegant.Release.elegant_exception.ctor_view (List.replicate 300 65))).message.length ≤ 256
    ∧ ([Operation.what, Operation.copy, Operation.message].foldl
        Elegant.Debug.elegant_exception_base.after
        (Elegant.Debug.elegant_exception_base.ctor_view ⟨[], [], 9, 1⟩ (List.replicate 300 65)
            none)).message.length ≤ 256
    ∧ ([Operation.what, Operation.copy, Operation.message].foldl
        Elegant.Debug.elegant_exception.after
        (Elegant.Debug.elegant_exception.ctor_view ⟨[], fun _ => [], fun _ => 0⟩ ⟨[], [], 9, 1⟩
            (List.replicate 300 65))).message.length ≤ 256
    ∧ ([Operation.what, Operation.copy, Operation.message].foldl
        General.Release.general_exception_base.after
        (General.Release.general_exception_base.ctor_view
            (List.replicate 300 65))).message.length ≤ 256
    ∧ ([Operation.what, Operation.copy, Operation.message].foldl
        General.Release.general_exception.after
        (General.Release.general_exception.ctor_view (List.replicate 300 65))).message.length ≤ 256
    ∧ ([Operation.what, Operation.copy, Operation.message].foldl
        General.Debug.general_exception_base.after
        (General.Debug.general_exception_base.ctor_view ⟨[], [], 9, 1⟩ (List.replicate 300 65)
            none)).message.length ≤ 256
    ∧ ([Operation.what, Operation.copy, Operation.message].foldl
        General.Debug.general_exception.after
        (General.Debug.general_exception.ctor_view ⟨[], fun _ => [], fun _ => 0⟩ ⟨[], [], 9, 1⟩
            (List.replicate 300 65))).message.length ≤ 256 :=
  message_length_invariant [Operation.what, Operation.copy, Operation.message]
    (Elegant.Release.elegant_exception_base.ctor_view (List.replicate 300 65))
    (Elegant.Release.elegant_exception_base.Constructed.ctor_view _)
    (Elegant.Release.elegant_exception.ctor_view (List.replicate 300 65))
    (Elegant.Release.elegant_exception.Constructed.ctor_view _)
    (Elegant.Debug.elegant_exception_base.ctor_view ⟨[], [], 9, 1⟩ (List.replicate 300 65) none)
    (Elegant.Debug.elegant_exception_base.Constructed.ctor_view _ _ _)
    (Elegant.Debug.elegant_exception.ctor_view ⟨[], fun _ => [], fun _ => 0⟩ ⟨[], [], 9, 1⟩
        (List.replicate 300 65))
    (Elegant.Debug.elegant_exception.Constructed.ctor_view _ _ _)
    (General.Release.general_exception_base.ctor_view (List.replicate 300 65))
    (General.Release.general_exception_base.Constructed.ctor_view _)
    (General.Release.general_exception.ctor_view (List.replicate 300 65))
    (General.Release.general_exception.Constructed.ctor_view _)
    (General.Debug.general_exception_base.ctor_view ⟨[], [], 9, 1⟩ (List.replicate 300 65) none)
    (General.Debug.general_exception_base.Constructed.ctor_view _ _ _)
    (General.Debug.general_exception.ctor_view ⟨[], fun _ => [], fun _ => 0⟩ ⟨[], [], 9, 1⟩
        (List.replicate 300 65))
    (General.Debug.general_exception.Constructed.ctor_view _ _ _)


/-- Claim C3.  In production mode `what()` of the value built from a code and
a message is `Exception: error_code: `, the decimal numeral of the code,
`, error_message: ` and the stored message, in both headers; code 42 and
message `disk full` give `Exception: error_code: 42, error_message: disk full`. -/
theorem production_what_exact (c : ExceptionID) (m : List Byte) :
    (Elegant.Release.elegant_exception_base.ctor_id_msg c m).what
        = bytes "Exception: error_code: " ++ bytes (Nat.repr c) ++ bytes ", error_message: "
          ++ stored_message m
    ∧ (Elegant.Release.elegant_exception_base.ctor_id_view c m).what
        = bytes "Exception: error_code: " ++ bytes (Nat.repr c) ++ bytes ", error_message: "
          ++ stored_message m
    ∧ (Elegant.Release.elegant_exception.ctor_id_view c m).what
        = bytes "Exception: error_code: " ++ bytes (Nat.repr c) ++ bytes ", error_message: "
          ++ stored_message m
    ∧ (General.Release.general_exception_base.ctor_id_msg c m).what
        = bytes "Exception: error_code: " ++ bytes (Nat.repr c) ++ bytes ", error_message: "
          ++ stored_message m
    ∧ (General.Release.general_exception_base.ctor_id_view c m).what
        = bytes "Exception: error_code: " ++ bytes (Nat.repr c) ++ bytes ", error_message: "
          ++ stored_message m
    ∧ (General.Release.general_exception.ctor_id_view c m).what
        = bytes "Exception: error_code: " ++ bytes (Nat.repr c) ++ bytes ", error_message: "
          ++ stored_message m
    ∧ (Elegant.Release.elegant_exception.ctor_id_view 42 (bytes "disk full")).what
        = bytes "Exception: error_code: 42, error_message: disk full"
    ∧ (General.Release.general_exception.ctor_id_view 42 (bytes "disk full")).what
        = bytes "Exception: error_code: 42, error_message: disk full" := by
  have hE : std_format Elegant.Release.elegant_exception_base.format_template
      [format_unsigned c, stored_message m]
      = bytes "Exception: error_code: " ++ bytes (Nat.repr c) ++ bytes ", error_message: "
          ++ stored_message m := by
    rw [← format_unsigned_eq_repr]
    exact release_template_format _ _
  have hG : std_format General.Release.general_exception_base.format_template
      [format_unsigned c, stored_message m]
      = bytes "Exception: error_code: " ++ bytes (Nat.repr c) ++ bytes ", error_message: "
          ++ stored_message m := by
    rw [← format_unsigned_eq_repr]
    exact release_template_format _ _
  exact ⟨hE, hE, hE, hG, hG, hG, by decide, by decide⟩

/-- Claim C4.  In diagnostic mode `what()` of `elegant_exception(c, m, location)`
is the production line followed by `, file name: `, the file, `, function
name: `, the function, `, line: ` and the decimal numeral of the line; the
inputs 42, `disk full`, `a.ext`, `f`, 7 give the line of the specification. -/
theorem diagnostic_what_exact (cc : Compiler) (site loc : source_location)
    (c : ExceptionID) (m : List Byte) :
    (Elegant.Debug.elegant_exception.ctor_id_view_loc cc site c m loc).what
        = bytes "Exception: error_code: " ++ bytes (Nat.repr c) ++ bytes ", error_message: "
          ++ stored_message m ++ bytes ", file name: " ++ loc.file_name
          ++ bytes ", function name: " ++ loc.function_name ++ bytes ", line: "
          ++ bytes (Nat.repr loc.line)
    ∧ (Elegant.Debug.elegant_exception.ctor_id_view_loc cc site 42 (bytes "disk full")
          ⟨bytes "a.ext", bytes "f", 7, loc.column⟩).what
        = bytes ("Exception: error_code: 42, error_message: disk full, "
            ++ "file name: a.ext, function name: f, line: 7") := by
  have h : ∀ (c : ExceptionID) (m : List Byte) (loc : source_location),
      (Elegant.Debug.elegant_exception.ctor_id_view_loc cc site c m loc).what
        = bytes "Exception: error_code: " ++ bytes (Nat.repr c) ++ bytes ", error_message: "
          ++ stored_message m ++ bytes ", file name: " ++ loc.file_name
          ++ bytes ", function name: " ++ loc.function_name ++ bytes ", line: "
          ++ bytes (Nat.repr loc.line) := by
    intro c m loc
    have h1 : (Elegant.Debug.elegant_exception.ctor_id_view_loc cc site c m loc).what
        = std_format (bytes "Exception: error_code: {}, error_message: {}, {}")
            [format_unsigned c, stored_message m,
             Elegant.formatter_source_location_format loc] := rfl
    rw [h1, debug_template_format, elegant_location_format_eq,
      format_unsigned_eq_repr, format_unsigned_eq_repr]
    have h3 : bytes ", file name: " = bytes ", " ++ bytes "file name: " := by decide
    rw [h3]
    simp only [List.append_assoc]
  refine ⟨h c m loc, ?_⟩
  rw [h]
  dsimp only
  decide

/-- Claim C5, as stated, fails: for code 42, message `disk full` and the
location `a.ext`, `f`, 7, `what()` of `general_exception` is not the line with
the order file, function, line; it is the line with the order file, line,
function. -/
theorem general_what_order_counterexample :
    (General.Debug.general_exception.ctor_id_view_loc
        ⟨bytes "general_exception.h", fun _ => bytes "general_exception", fun _ => 1⟩
        ⟨bytes "main.cpp", bytes "main", 10, 5⟩ 42 (bytes "disk full")
        ⟨bytes "a.ext", bytes "f", 7, 3⟩).what
      ≠ bytes ("Exception: error_code: 42, error_message: disk full, "
          ++ "file name: a.ext, function name: f, line: 7")
    ∧ (General.Debug.general_exception.ctor_id_view_loc
        ⟨bytes "general_exception.h", fun _ => bytes "general_exception", fun _ => 1⟩
        ⟨bytes "main.cpp", bytes "main", 10, 5⟩ 42 (bytes "disk full")
        ⟨bytes "a.ext", bytes "f", 7, 3⟩).what
      = bytes ("Exception: error_code: 42, error_message: disk full, "
          ++ "file name: a.ext, line: 7, function name: f") := by
  decide

/-- Claim C5, amended.  In diagnostic mode of `general_exception` the location
part of `what()` is `file name: `, the file, `, line: `, the decimal numeral
of the line, `, function name: ` and the function: file, then line, then
function. -/
theorem general_diagnostic_what_exact (cc : Compiler) (site loc : source_location)
    (c : ExceptionID) (m : List Byte) :
    General.formatter_source_location_format loc
        = bytes "file name: " ++ loc.file_name ++ bytes ", line: "
          ++ bytes (Nat.repr loc.line) ++ bytes ", function name: " ++ loc.function_name
    ∧ (General.Debug.general_exception.ctor_id_view_loc cc site c m loc).what
        = bytes "Exception: error_code: " ++ bytes (Nat.repr c) ++ bytes ", error_message: "
          ++ stored_message m ++ bytes ", file name: " ++ loc.file_name
          ++ bytes ", line: " ++ bytes (Nat.repr loc.line)
          ++ bytes ", function name: " ++ loc.function_name := by
  have h1 : (General.Debug.general_exception.ctor_id_view_loc cc site c m loc).what
      = std_format (bytes "Exception: error_code: {}, error_message: {}, {}")
          [format_unsigned c, stored_message m,
           std_format (bytes "{}") [General.formatter_source_location_format loc]] := rfl
  have h3 : bytes ", file name: " = bytes ", " ++ bytes "file name: " := by decide
  refine ⟨?_, ?_⟩
  · rw [general_location_format_eq, format_unsigned_eq_repr]
  · rw [h1, single_field_format, debug_template_format, general_location_format_eq,
      format_unsigned_eq_repr, format_unsigned_eq_repr, h3]
    simp only [List.append_assoc]

/-- Claim C6.  A default-constructed value has `id()` equal to
18446744073709551615, the maximum of the unsigned 64-bit code type, and an
empty `message()`, in both build modes and both headers. -/
theorem default_is_sentinel_and_empty (cc : Compiler) (site : source_location)
    (l : Option source_location) :
    ExceptionID_max = 2 ^ 64 - 1
    ∧ Elegant.Release.elegant_exception_base.ctor.id = 18446744073709551615
    ∧ Elegant.Release.elegant_exception_base.ctor.message = []
    ∧ Elegant.Release.elegant_exception.ctor.id = 18446744073709551615
    ∧ Elegant.Release.elegant_exception.ctor.message = []
    ∧ (Elegant.Debug.elegant_exception_base.ctor site l).id = 18446744073709551615
    ∧ (Elegant.Debug.elegant_exception_base.ctor site l).message = []
    ∧ (Elegant.Debug.elegant_exception.ctor cc site).id = 18446744073709551615
    ∧ (Elegant.Debug.elegant_exception.ctor cc site).message = []
    ∧ General.Release.general_exception_base.ctor.id = 18446744073709551615
    ∧ General.Release.general_exception_base.ctor.message = []
    ∧ General.Release.general_exception.ctor.id = 18446744073709551615
    ∧ General.Release.general_exception.ctor.message = []
    ∧ (General.Debug.general_exception_base.ctor site l).id = 18446744073709551615
    ∧ (General.Debug.general_exception_base.ctor site l).message = []
    ∧ (General.Debug.general_exception.ctor cc site).id = 18446744073709551615
    ∧ (General.Debug.general_exception.ctor cc site).message = [] := by
  refine ⟨rfl, ?_⟩
  repeat' constructor

/-- Claim C7.  For every code `c` and every constructor that takes a code,
`id()` of the constructed value is `c`, and it is still `c` after any
sequence of operations (`what()`, `message()`, `location()`, `id()`, copying)
on the value. -/
theorem id_is_code_for_lifetime (c : ExceptionID) (m : List Byte) (cc : Compiler)
    (site loc : source_location) (l : Option source_location) (ops : List Operation) :
    (ops.foldl Elegant.Release.elegant_exception_base.after
        (Elegant.Release.elegant_exception_base.ctor_id c)).id = c
    ∧ (ops.foldl Elegant.Release.elegant_exception_base.after
        (Elegant.Release.elegant_exception_base.ctor_id_msg c m)).id = c
    ∧ (ops.foldl Elegant.Release.elegant_exception_base.after
        (Elegant.Release.elegant_exception_base.ctor_id_view c m)).id = c
    ∧ (ops.foldl Elegant.Release.elegant_exception.after
        (Elegant.Release.elegant_exception.ctor_id c)).id = c
    ∧ (ops.foldl Elegant.Release.elegant_exception.after
        (Elegant.Release.elegant_exception.ctor_id_view c m)).id = c
    ∧ (ops.foldl Elegant.Debug.elegant_exception_base.after
        (Elegant.Debug.elegant_exception_base.ctor_id site c l)).id = c
    ∧ (ops.foldl Elegant.Debug.elegant_exception_base.after
        (Elegant.Debug.elegant_exception_base.ctor_id_msg site c m l)).id = c
    ∧ (ops.foldl Elegant.Debug.elegant_exception_base.after
        (Elegant.Debug.elegant_exception_base.ctor_id_view site c m l)).id = c
    ∧ (ops.foldl Elegant.Debug.elegant_exception.after
        (Elegant.Debug.elegant_exception.ctor_id cc site c)).id = c
    ∧ (ops.foldl Elegant.Debug.elegant_exception.after
        (Elegant.Debug.elegant_exception.ctor_id_view cc site c m)).id = c
    ∧ (ops.foldl Elegant.Debug.elegant_exception.after
        (Elegant.Debug.elegant_exception.ctor_id_view_loc cc site c m loc)).id = c
    ∧ (ops.foldl General.Release.general_exception_base.after
        (General.Release.general_exception_base.ctor_id c)).id = c
    ∧ (ops.foldl General.Release.general_exception_base.after
        (General.Release.general_exception_base.ctor_id_msg c m)).id = c
    ∧ (ops.foldl General.Release.general_exception_base.after
        (General.Release.general_exception_base.ctor_id_view c m)).id = c
    ∧ (ops.foldl General.Release.general_exception.after
        (General.Release.general_exception.ctor_id c)).id = c
    ∧ (ops.foldl General.Release.general_exception.after
        (General.Release.general_exception.ctor_id_view c m)).id = c
    ∧ (ops.foldl General.Debug.general_exception_base.after
        (General.Debug.general_exception_base.ctor_id site c l)).id = c
    ∧ (ops.foldl General.Debug.general_exception_base.after
        (General.Debug.general_exception_base.ctor_id_msg site c m l)).id = c
    ∧ (ops.foldl General.Debug.general_exception_base.after
        (General.Debug.general_exception_base.ctor_id_view site c m l)).id = c
    ∧ (ops.foldl General.Debug.general_exception.after
        (General.Debug.general_exception.ctor_id cc site c)).id = c
    ∧ (ops.foldl General.Debug.general_exception.after
        (General.Debug.general_exception.ctor_id_view cc site c m)).id = c
    ∧ (ops.foldl General.Debug.general_exception.after
        (General.Debug.general_exception.ctor_id_view_loc cc site c m loc)).id = c := by
  refine ⟨?_, ?_, ?_, ?_, ?_, ?_, ?_, ?_, ?_, ?_, ?_, ?_, ?_, ?_, ?_, ?_, ?_, ?_, ?_, ?_, ?_, ?_⟩
  · rw [foldl_after_elegant_release_base]; rfl
  · rw [foldl_after_elegant_release_base]; rfl
  · rw [foldl_after_elegant_release_base]; rfl
  · rw [foldl_after_elegant_release_public]; rfl
  · rw [foldl_after_elegant_release_public]; rfl
  · rw [foldl_after_elegant_debug_base]; rfl
  · rw [foldl_after_elegant_debug_base]; rfl
  · rw [foldl_after_elegant_debug_base]; rfl
  · rw [foldl_after_elegant_debug_public]; rfl
  · rw [foldl_after_elegant_debug_public]; rfl
  · rw [foldl_after_elegant_debug_public]; rfl
  · rw [foldl_after_general_release_base]; rfl
  · rw [foldl_after_general_release_base]; rfl
  · rw [foldl_after_general_release_base]; rfl
  · rw [foldl_after_general_release_public]; rfl
  · rw [foldl_after_general_release_public]; rfl
  · rw [foldl_after_general_debug_base]; rfl
  · rw [foldl_after_general_debug_base]; rfl
  · rw [foldl_after_general_debug_base]; rfl
  · rw [foldl_after_general_debug_public]; rfl
  · rw [foldl_after_general_debug_public]; rfl
  · rw [foldl_after_general_debug_public]; rfl


/-- Claim C8 on the code.  In diagnostic mode a public constructor without a
location argument stores the position of its own initialiser in the header,
whatever the position `site` of the construction expression is; the base
class used directly at `site` stores `site`.  For `elegant_exception e{42}` on
line 10 of `main.cpp` the stored location is line 221 of `elegant_exception.h`. -/
theorem location_without_argument_is_header_position (cc : Compiler) (site : source_location)
    (c : ExceptionID) (m : List Byte) :
    (Elegant.Debug.elegant_exception.ctor cc site).location = header_site cc 218
    ∧ (Elegant.Debug.elegant_exception.ctor_id cc site c).location = header_site cc 221
    ∧ (Elegant.Debug.elegant_exception.ctor_msg cc site m).location = header_site cc 224
    ∧ (Elegant.Debug.elegant_exception.ctor_view cc site m).location = header_site cc 227
    ∧ (Elegant.Debug.elegant_exception.ctor_id_view cc site c m).location
        = header_site cc 232
    ∧ (General.Debug.general_exception.ctor cc site).location = header_site cc 217
    ∧ (General.Debug.general_exception.ctor_id cc site c).location = header_site cc 220
    ∧ (General.Debug.general_exception.ctor_msg cc site m).location = header_site cc 223
    ∧ (General.Debug.general_exception.ctor_view cc site m).location = header_site cc 226
    ∧ (General.Debug.general_exception.ctor_id_view cc site c m).location
        = header_site cc 231
    ∧ (Elegant.Debug.elegant_exception_base.ctor_id site c none).location = site
    ∧ (General.Debug.general_exception_base.ctor_id site c none).location = site
    ∧ (Elegant.Debug.elegant_exception.ctor_id
          ⟨bytes "elegant_exception.h", fun _ => bytes "elegant_exception", fun _ => 1⟩
          ⟨bytes "main.cpp", bytes "main", 10, 5⟩ 42).location.line = 221
    ∧ (Elegant.Debug.elegant_exception.ctor_id
          ⟨bytes "elegant_exception.h", fun _ => bytes "elegant_exception", fun _ => 1⟩
          ⟨bytes "main.cpp", bytes "main", 10, 5⟩ 42).location.file_name = bytes
              "elegant_exception.h"
    ∧ (Elegant.Debug.elegant_exception.ctor_id
          ⟨bytes "elegant_exception.h", fun _ => bytes "elegant_exception", fun _ => 1⟩
          ⟨bytes "main.cpp", bytes "main", 10, 5⟩ 42).location
        ≠ ⟨bytes "main.cpp", bytes "main", 10, 5⟩ := by
  refine ⟨rfl, rfl, rfl, rfl, rfl, rfl, rfl, rfl, rfl, rfl, rfl, rfl, rfl, rfl, ?_⟩
  decide

/-- Claim C9.  In diagnostic mode the public constructors that take a location
store it unchanged: the value built from a message and `loc` has `location()`
equal to `loc`, the truncated message and the sentinel code, and the value
built from a code, a message and `loc` has `location()` equal to `loc`, the
truncated message and that code; the construction site plays no part. -/
theorem explicit_location_is_stored (cc : Compiler) (site loc : source_location)
    (c : ExceptionID) (m : List Byte) :
    (Elegant.Debug.elegant_exception.ctor_view_loc cc site m loc).location = loc
    ∧ (Elegant.Debug.elegant_exception.ctor_view_loc cc site m loc).message = stored_message m
    ∧ (Elegant.Debug.elegant_exception.ctor_view_loc cc site m loc).id = 18446744073709551615
    ∧ (Elegant.Debug.elegant_exception.ctor_id_view_loc cc site c m loc).location = loc
    ∧ (Elegant.Debug.elegant_exception.ctor_id_view_loc cc site c m loc).message = stored_message m
    ∧ (Elegant.Debug.elegant_exception.ctor_id_view_loc cc site c m loc).id = c
    ∧ (General.Debug.general_exception.ctor_view_loc cc site m loc).location = loc
    ∧ (General.Debug.general_exception.ctor_view_loc cc site m loc).message = stored_message m
    ∧ (General.Debug.general_exception.ctor_view_loc cc site m loc).id = 18446744073709551615
    ∧ (General.Debug.general_exception.ctor_id_view_loc cc site c m loc).location = loc
    ∧ (General.Debug.general_exception.ctor_id_view_loc cc site c m loc).message = stored_message m
    ∧ (General.Debug.general_exception.ctor_id_view_loc cc site c m loc).id = c := by
  repeat' constructor

/-- Claim C10, as stated, fails: the public class has no constructor that
takes a location alone, and none that takes a code and a location, so two of
the four forms do not extend by a location argument. -/
theorem location_on_every_form_counterexample :
    ¬ ((∃ e, Elegant.Debug.elegant_exception.construct
            ⟨bytes "elegant_exception.h", fun _ => bytes "elegant_exception", fun _ => 1⟩
            ⟨bytes "main.cpp", bytes "main", 10, 5⟩
            [Arg.loc ⟨bytes "a.ext", bytes "f", 7, 3⟩] = some e
          ∧ e.location = ⟨bytes "a.ext", bytes "f", 7, 3⟩)
      ∧ (∃ e, Elegant.Debug.elegant_exception.construct
            ⟨bytes "elegant_exception.h", fun _ => bytes "elegant_exception", fun _ => 1⟩
            ⟨bytes "main.cpp", bytes "main", 10, 5⟩
            [Arg.id 42, Arg.loc ⟨bytes "a.ext", bytes "f", 7, 3⟩] = some e
          ∧ e.location = ⟨bytes "a.ext", bytes "f", 7, 3⟩)
      ∧ (∃ e, Elegant.Debug.elegant_exception.construct
            ⟨bytes "elegant_exception.h", fun _ => bytes "elegant_exception", fun _ => 1⟩
            ⟨bytes "main.cpp", bytes "main", 10, 5⟩
            [Arg.view (bytes "disk full"), Arg.loc ⟨bytes "a.ext", bytes "f", 7, 3⟩] = some e
          ∧ e.location = ⟨bytes "a.ext", bytes "f", 7, 3⟩)
      ∧ (∃ e, Elegant.Debug.elegant_exception.construct
            ⟨bytes "elegant_exception.h", fun _ => bytes "elegant_exception", fun _ => 1⟩
            ⟨bytes "main.cpp", bytes "main", 10, 5⟩
            [Arg.id 42, Arg.view (bytes "disk full"), Arg.loc ⟨bytes "a.ext", bytes "f", 7, 3⟩]
              = some e
          ∧ e.location = ⟨bytes "a.ext", bytes "f", 7, 3⟩)) := by
  rintro ⟨⟨e, he, -⟩, -⟩
  simp [Elegant.Debug.elegant_exception.construct] at he

/-- Claim C10, amended.  In diagnostic mode the two forms of the public class
that take a message (message only, code and message; the message owned or a
view) accept a location argument and the value has `location()` equal to it;
the form without arguments and the code-only form accept none. -/
theorem location_on_message_forms_only (cc : Compiler) (site loc : source_location)
    (c : ExceptionID) (m : List Byte) :
    (∃ e, Elegant.Debug.elegant_exception.construct cc site [Arg.view m, Arg.loc loc] = some e
        ∧ e.location = loc)
    ∧ (∃ e, Elegant.Debug.elegant_exception.construct cc site [Arg.msg m, Arg.loc loc] = some e
        ∧ e.location = loc)
    ∧ (∃ e, Elegant.Debug.elegant_exception.construct cc site [Arg.id c, Arg.view m, Arg.loc loc]
        = some e
        ∧ e.location = loc)
    ∧ (∃ e, Elegant.Debug.elegant_exception.construct cc site [Arg.id c, Arg.msg m, Arg.loc loc]
        = some e
        ∧ e.location = loc)
    ∧ Elegant.Debug.elegant_exception.construct cc site [Arg.loc loc] = none
    ∧ Elegant.Debug.elegant_exception.construct cc site [Arg.id c, Arg.loc loc] = none
    ∧ (∃ e, General.Debug.general_exception.construct cc site [Arg.view m, Arg.loc loc] = some e
        ∧ e.location = loc)
    ∧ (∃ e, General.Debug.general_exception.construct cc site [Arg.msg m, Arg.loc loc] = some e
        ∧ e.location = loc)
    ∧ (∃ e, General.Debug.general_exception.construct cc site [Arg.id c, Arg.view m, Arg.loc loc]
        = some e
        ∧ e.location = loc)
    ∧ (∃ e, General.Debug.general_exception.construct cc site [Arg.id c, Arg.msg m, Arg.loc loc]
        = some e
        ∧ e.location = loc)
    ∧ General.Debug.general_exception.construct cc site [Arg.loc loc] = none
    ∧ General.Debug.general_exception.construct cc site [Arg.id c, Arg.loc loc] = none := by
  refine ⟨⟨_, rfl, rfl⟩, ⟨_, rfl, rfl⟩, ⟨_, rfl, rfl⟩, ⟨_, rfl, rfl⟩, rfl, rfl,
    ⟨_, rfl, rfl⟩, ⟨_, rfl, rfl⟩, ⟨_, rfl, rfl⟩, ⟨_, rfl, rfl⟩, rfl, rfl⟩

/-! ### The production line -/

/-- The production line of `elegant_exception.h`, for any value of the class. -/
theorem what_eq_elegant_release (e : Elegant.Release.elegant_exception_base) :
    e.what = bytes "Exception: error_code: " ++ bytes (Nat.repr e.id)
      ++ bytes ", error_message: " ++ e.message := by
  rw [← format_unsigned_eq_repr]
  exact release_template_format _ _

/-- The production line of `general_exception.h`, for any value of the class. -/
theorem what_eq_general_release (e : General.Release.general_exception_base) :
    e.what = bytes "Exception: error_code: " ++ bytes (Nat.repr e.id)
      ++ bytes ", error_message: " ++ e.message := by
  rw [← format_unsigned_eq_repr]
  exact release_template_format _ _

/-- A construction expression `elegant_exception_base<ReleaseBuildTag>` accepts
has no location argument. -/
theorem no_loc_arg_elegant_release (site : source_location) (args : List Arg)
    (e : Elegant.Release.elegant_exception_base)
    (h : Elegant.Release.elegant_exception_base.construct site args = some e) :
    ∀ l, Arg.loc l ∉ args := by
  intro l hl
  unfold Elegant.Release.elegant_exception_base.construct at h
  split at h <;> simp at hl h

/-- A construction expression `general_exception_base<ReleaseBuildTag>` accepts
has no location argument. -/
theorem no_loc_arg_general_release (site : source_location) (args : List Arg)
    (e : General.Release.general_exception_base)
    (h : General.Release.general_exception_base.construct site args = some e) :
    ∀ l, Arg.loc l ∉ args := by
  intro l hl
  unfold General.Release.general_exception_base.construct at h
  split at h <;> simp at hl h

/-- Claim C11.  A value of the production specialisation
`*_exception_base<ReleaseBuildTag>` is its code and its stored message: two
values with equal `id()` and `message()` are equal and have the same
`what()`; the same construction expression at two call sites gives values
with equal `id()`, `message()` and `what()`; no accepted construction has a
location argument; and `what()` is the two-field line that ends with the
message, with no file, function or line field. -/
theorem production_carries_no_location (site1 site2 : source_location) (args : List Arg)
    (e1 e2 : Elegant.Release.elegant_exception_base)
    (g1 g2 : General.Release.general_exception_base)
    (h1 : Elegant.Release.elegant_exception_base.construct site1 args = some e1)
    (h2 : Elegant.Release.elegant_exception_base.construct site2 args = some e2)
    (k1 : General.Release.general_exception_base.construct site1 args = some g1)
    (k2 : General.Release.general_exception_base.construct site2 args = some g2) :
    (e1.id = e2.id ∧ e1.message = e2.message ∧ e1.what = e2.what)
    ∧ (g1.id = g2.id ∧ g1.message = g2.message ∧ g1.what = g2.what)
    ∧ (∀ l, Arg.loc l ∉ args)
    ∧ (∀ a b : Elegant.Release.elegant_exception_base,
        a.id = b.id → a.message = b.message → a = b ∧ a.what = b.what)
    ∧ (∀ a b : General.Release.general_exception_base,
        a.id = b.id → a.message = b.message → a = b ∧ a.what = b.what)
    ∧ e1.what = bytes "Exception: error_code: " ++ bytes (Nat.repr e1.id)
        ++ bytes ", error_message: " ++ e1.message
    ∧ g1.what = bytes "Exception: error_code: " ++ bytes (Nat.repr g1.id)
        ++ bytes ", error_message: " ++ g1.message := by
  have he : e1 = e2 := by
    have h : Elegant.Release.elegant_exception_base.construct site1 args
        = Elegant.Release.elegant_exception_base.construct site2 args := rfl
    rw [h1, h2] at h
    exact Option.some.inj h
  have hg : g1 = g2 := by
    have h : General.Release.general_exception_base.construct site1 args
        = General.Release.general_exception_base.construct site2 args := rfl
    rw [k1, k2] at h
    exact Option.some.inj h
  refine ⟨?_, ?_, no_loc_arg_elegant_release site1 args e1 h1, ?_, ?_,
    what_eq_elegant_release e1, what_eq_general_release g1⟩
  · subst he; exact ⟨rfl, rfl, rfl⟩
  · subst hg; exact ⟨rfl, rfl, rfl⟩
  · rintro ⟨ia, ma⟩ ⟨ib, mb⟩ hi hm
    have hi2 : ia = ib := hi
    have hm2 : ma = mb := hm
    subst hi2; subst hm2
    exact ⟨rfl, rfl⟩
  · rintro ⟨ia, ma⟩ ⟨ib, mb⟩ hi hm
    have hi2 : ia = ib := hi
    have hm2 : ma = mb := hm
    subst hi2; subst hm2
    exact ⟨rfl, rfl⟩

/-- Claim C11 at code 42 and message `disk full`, constructed on line 10 of
`main.cpp` and on line 99 of `other.cpp`. -/
theorem production_carries_no_location_witness :
    Elegant.Release.elegant_exception_base.construct ⟨bytes "main.cpp", bytes "main", 10, 5⟩
        [Arg.id 42, Arg.view (bytes "disk full")]
      = some (Elegant.Release.elegant_exception_base.ctor_id_view 42 (bytes "disk full"))
    ∧ Elegant.Release.elegant_exception_base.construct ⟨bytes "other.cpp", bytes "g", 99, 1⟩
        [Arg.id 42, Arg.view (bytes "disk full")]
      = some (Elegant.Release.elegant_exception_base.ctor_id_view 42 (bytes "disk full"))
    ∧ (∀ l, Arg.loc l ∉ [Arg.id 42, Arg.view (bytes "disk full")])
    ∧ (Elegant.Release.elegant_exception_base.ctor_id_view 42 (bytes "disk full")).what
        = bytes "Exception: error_code: "
          ++ bytes (Nat.repr (Elegant.Release.elegant_exception_base.ctor_id_view 42
              (bytes "disk full")).id)
          ++ bytes ", error_message: "
          ++ (Elegant.Release.elegant_exception_base.ctor_id_view 42
              (bytes "disk full")).message :=
  have h := production_carries_no_location
    ⟨bytes "main.cpp", bytes "main", 10, 5⟩ ⟨bytes "other.cpp", bytes "g", 99, 1⟩
    [Arg.id 42, Arg.view (bytes "disk full")]
    (Elegant.Release.elegant_exception_base.ctor_id_view 42 (bytes "disk full"))
    (Elegant.Release.elegant_exception_base.ctor_id_view 42 (bytes "disk full"))
    (General.Release.general_exception_base.ctor_id_view 42 (bytes "disk full"))
    (General.Release.general_exception_base.ctor_id_view 42 (bytes "disk full"))
    rfl rfl rfl rfl
  ⟨rfl, rfl, h.2.2.1, h.2.2.2.2.2.1⟩

/-- Claim C12, as stated, fails in diagnostic mode: two default constructions
of `elegant_exception_base<DebugBuildTag>`, on line 10 and on line 20 of
`main.cpp`, have different `location()` and different `what()`. -/
theorem default_values_differ_counterexample :
    (Elegant.Debug.elegant_exception_base.ctor
        ⟨bytes "main.cpp", bytes "main", 10, 5⟩ none).location
      ≠ (Elegant.Debug.elegant_exception_base.ctor
        ⟨bytes "main.cpp", bytes "main", 20, 5⟩ none).location
    ∧ (Elegant.Debug.elegant_exception_base.ctor
        ⟨bytes "main.cpp", bytes "main", 10, 5⟩ none).what
      ≠ (Elegant.Debug.elegant_exception_base.ctor
        ⟨bytes "main.cpp", bytes "main", 20, 5⟩ none).what := by
  decide

/-- Claim C12, amended.  Two default constructions, whatever their call sites,
give the same value of the production specialisation
`*_exception_base<ReleaseBuildTag>`, hence equal `id()`, `message()` and
`what()`, and values with equal `id()` and equal `message()` in diagnostic
mode; in diagnostic mode `location()` of a default-constructed value of the
base class is the call site of its construction. -/
theorem default_values_agree_on_code_and_message (cc1 cc2 : Compiler)
    (site1 site2 : source_location) :
    Elegant.Release.elegant_exception_base.construct site1 []
        = some Elegant.Release.elegant_exception_base.ctor
    ∧ Elegant.Release.elegant_exception_base.construct site2 []
        = some Elegant.Release.elegant_exception_base.ctor
    ∧ General.Release.general_exception_base.construct site1 []
        = some General.Release.general_exception_base.ctor
    ∧ General.Release.general_exception_base.construct site2 []
        = some General.Release.general_exception_base.ctor
    ∧ (Elegant.Debug.elegant_exception_base.ctor site1 none).id = (Elegant.Debug.elegant_exception_base.ctor site2 none).id
    ∧ (Elegant.Debug.elegant_exception_base.ctor site1 none).message = (Elegant.Debug.elegant_exception_base.ctor site2 none).message
    ∧ (Elegant.Debug.elegant_exception.ctor cc1 site1).id = (Elegant.Debug.elegant_exception.ctor cc2 site2).id
    ∧ (Elegant.Debug.elegant_exception.ctor cc1 site1).message = (Elegant.Debug.elegant_exception.ctor cc2 site2).message
    ∧ (Elegant.Debug.elegant_exception_base.ctor site1 none).location = site1
    ∧ (Elegant.Debug.elegant_exception_base.ctor site2 none).location = site2
    ∧ (General.Debug.general_exception_base.ctor site1 none).id = (General.Debug.general_exception_base.ctor site2 none).id
    ∧ (General.Debug.general_exception_base.ctor site1 none).message = (General.Debug.general_exception_base.ctor site2 none).message
    ∧ (General.Debug.general_exception.ctor cc1 site1).id = (General.Debug.general_exception.ctor cc2 site2).id
    ∧ (General.Debug.general_exception.ctor cc1 site1).message = (General.Debug.general_exception.ctor cc2 site2).message
    ∧ (General.Debug.general_exception_base.ctor site1 none).location = site1
    ∧ (General.Debug.general_exception_base.ctor site2 none).location = site2 := by
  repeat' constructor

/-- Claim C13, as stated, fails in diagnostic mode: for code 42, message
`disk full` and the location `a.ext`, `f`, 7, `what()` of `elegant_exception`
and `what()` of `general_exception` are different lines. -/
theorem two_types_differ_counterexample :
    (Elegant.Debug.elegant_exception.ctor_id_view_loc
        ⟨bytes "header.h", fun _ => bytes "ctor", fun _ => 1⟩
        ⟨bytes "main.cpp", bytes "main", 10, 5⟩ 42 (bytes "disk full")
        ⟨bytes "a.ext", bytes "f", 7, 3⟩).what
      ≠ (General.Debug.general_exception.ctor_id_view_loc
        ⟨bytes "header.h", fun _ => bytes "ctor", fun _ => 1⟩
        ⟨bytes "main.cpp", bytes "main", 10, 5⟩ 42 (bytes "disk full")
        ⟨bytes "a.ext", bytes "f", 7, 3⟩).what := by
  decide

/-- Claim C13, amended.  For every construction form and every input the two
types have equal `id()` and equal `message()` in both build modes, equal
`what()` in production mode, and equal `location()` when the location is
supplied; in diagnostic mode both `what()` are the production line and `, `
followed by the location, which `elegant_exception` renders as file,
function, line and `general_exception` as file, line, function. -/
theorem two_types_agree_except_location_text (cc : Compiler) (site loc : source_location)
    (c : ExceptionID) (m : List Byte) :
    Elegant.Release.elegant_exception.ctor.id = General.Release.general_exception.ctor.id
    ∧ Elegant.Release.elegant_exception.ctor.message = General.Release.general_exception.ctor.message
    ∧ Elegant.Release.elegant_exception.ctor.what = General.Release.general_exception.ctor.what
    ∧ (Elegant.Release.elegant_exception.ctor_id c).id = (General.Release.general_exception.ctor_id c).id
    ∧ (Elegant.Release.elegant_exception.ctor_id c).message = (General.Release.general_exception.ctor_id c).message
    ∧ (Elegant.Release.elegant_exception.ctor_id c).what = (General.Release.general_exception.ctor_id c).what
    ∧ (Elegant.Release.elegant_exception.ctor_msg m).id = (General.Release.general_exception.ctor_msg m).id
    ∧ (Elegant.Release.elegant_exception.ctor_msg m).message = (General.Release.general_exception.ctor_msg m).message
    ∧ (Elegant.Release.elegant_exception.ctor_msg m).what = (General.Release.general_exception.ctor_msg m).what
    ∧ (Elegant.Release.elegant_exception.ctor_view m).id = (General.Release.general_exception.ctor_view m).id
    ∧ (Elegant.Release.elegant_exception.ctor_view m).message = (General.Release.general_exception.ctor_view m).message
    ∧ (Elegant.Release.elegant_exception.ctor_view m).what = (General.Release.general_exception.ctor_view m).what
    ∧ (Elegant.Release.elegant_exception.ctor_id_view c m).id = (General.Release.general_exception.ctor_id_view c m).id
    ∧ (Elegant.Release.elegant_exception.ctor_id_view c m).message = (General.Release.general_exception.ctor_id_view c m).message
    ∧ (Elegant.Release.elegant_exception.ctor_id_view c m).what = (General.Release.general_exception.ctor_id_view c m).what
    ∧ (Elegant.Debug.elegant_exception.ctor cc site).id
        = (General.Debug.general_exception.ctor cc site).id
    ∧ (Elegant.Debug.elegant_exception.ctor cc site).message
        = (General.Debug.general_exception.ctor cc site).message
    ∧ (Elegant.Debug.elegant_exception.ctor_id cc site c).id
        = (General.Debug.general_exception.ctor_id cc site c).id
    ∧ (Elegant.Debug.elegant_exception.ctor_id cc site c).message
        = (General.Debug.general_exception.ctor_id cc site c).message
    ∧ (Elegant.Debug.elegant_exception.ctor_msg cc site m).id
        = (General.Debug.general_exception.ctor_msg cc site m).id
    ∧ (Elegant.Debug.elegant_exception.ctor_msg cc site m).message
        = (General.Debug.general_exception.ctor_msg cc site m).message
    ∧ (Elegant.Debug.elegant_exception.ctor_view cc site m).id
        = (General.Debug.general_exception.ctor_view cc site m).id
    ∧ (Elegant.Debug.elegant_exception.ctor_view cc site m).message
        = (General.Debug.general_exception.ctor_view cc site m).message
    ∧ (Elegant.Debug.elegant_exception.ctor_id_view cc site c m).id
        = (General.Debug.general_exception.ctor_id_view cc site c m).id
    ∧ (Elegant.Debug.elegant_exception.ctor_id_view cc site c m).message
        = (General.Debug.general_exception.ctor_id_view cc site c m).message
    ∧ (Elegant.Debug.elegant_exception.ctor_view_loc cc site m loc).id
        = (General.Debug.general_exception.ctor_view_loc cc site m loc).id
    ∧ (Elegant.Debug.elegant_exception.ctor_view_loc cc site m loc).message
        = (General.Debug.general_exception.ctor_view_loc cc site m loc).message
    ∧ (Elegant.Debug.elegant_exception.ctor_id_view_loc cc site c m loc).id
        = (General.Debug.general_exception.ctor_id_view_loc cc site c m loc).id
    ∧ (Elegant.Debug.elegant_exception.ctor_id_view_loc cc site c m loc).message
        = (General.Debug.general_exception.ctor_id_view_loc cc site c m loc).message
    ∧ (Elegant.Debug.elegant_exception.ctor_view_loc cc site m loc).location
        = (General.Debug.general_exception.ctor_view_loc cc site m loc).location
    ∧ (Elegant.Debug.elegant_exception.ctor_id_view_loc cc site c m loc).location
        = (General.Debug.general_exception.ctor_id_view_loc cc site c m loc).location
    ∧ (Elegant.Debug.elegant_exception.ctor_id_view_loc cc site c m loc).what
        = (Elegant.Release.elegant_exception.ctor_id_view c m).what ++ bytes ", "
          ++ (bytes "file name: " ++ loc.file_name ++ bytes ", function name: "
            ++ loc.function_name ++ bytes ", line: " ++ bytes (Nat.repr loc.line))
    ∧ (General.Debug.general_exception.ctor_id_view_loc cc site c m loc).what
        = (General.Release.general_exception.ctor_id_view c m).what ++ bytes ", "
          ++ (bytes "file name: " ++ loc.file_name ++ bytes ", line: "
            ++ bytes (Nat.repr loc.line) ++ bytes ", function name: "
            ++ loc.function_name) := by
  have hE : (Elegant.Debug.elegant_exception.ctor_id_view_loc cc site c m loc).what
      = std_format (bytes "Exception: error_code: {}, error_message: {}, {}")
          [format_unsigned c, stored_message m,
           Elegant.formatter_source_location_format loc] := rfl
  have hG : (General.Debug.general_exception.ctor_id_view_loc cc site c m loc).what
      = std_format (bytes "Exception: error_code: {}, error_message: {}, {}")
          [format_unsigned c, stored_message m,
           std_format (bytes "{}") [General.formatter_source_location_format loc]] := rfl
  have hEr : (Elegant.Release.elegant_exception.ctor_id_view c m).what
      = bytes "Exception: error_code: " ++ format_unsigned c ++ bytes ", error_message: "
          ++ stored_message m := release_template_format _ _
  have hGr : (General.Release.general_exception.ctor_id_view c m).what
      = bytes "Exception: error_code: " ++ format_unsigned c ++ bytes ", error_message: "
          ++ stored_message m := release_template_format _ _
  refine ⟨rfl, rfl, rfl, rfl, rfl, rfl, rfl, rfl, rfl, rfl, rfl, rfl, rfl, rfl, rfl, rfl, rfl, rfl, rfl, rfl, rfl, rfl, rfl, rfl, rfl, rfl, rfl, rfl, rfl, rfl, rfl, ?_, ?_⟩
  · rw [hE, hEr, debug_template_format, elegant_location_format_eq, format_unsigned_eq_repr,
      format_unsigned_eq_repr]
  · rw [hG, hGr, single_field_format, debug_template_format, general_location_format_eq,
      format_unsigned_eq_repr, format_unsigned_eq_repr]

/-! ### Truncating twice -/

theorem stored_message_of_length_le (m : List Byte) (h : m.length ≤ 256) :
    stored_message m = m := by
  rw [stored_message, if_pos h]

theorem stored_message_idempotent (m : List Byte) :
    stored_message (stored_message m) = stored_message m :=
  stored_message_of_length_le _ (stored_message_length_le m)

/-- Claim C14.  Truncation is idempotent in both headers, and a value
constructed from the `message()` of a constructed value stores exactly that
message. -/
theorem truncation_is_idempotent (m : List Byte) (cc : Compiler) (site : source_location)
    (l : Option source_location)
    (e1 : Elegant.Release.elegant_exception_base)
    (h1 : Elegant.Release.elegant_exception_base.Constructed e1)
    (e2 : Elegant.Release.elegant_exception)
    (h2 : Elegant.Release.elegant_exception.Constructed e2)
    (e3 : Elegant.Debug.elegant_exception_base)
    (h3 : Elegant.Debug.elegant_exception_base.Constructed e3)
    (e4 : Elegant.Debug.elegant_exception)
    (h4 : Elegant.Debug.elegant_exception.Constructed e4)
    (e5 : General.Release.general_exception_base)
    (h5 : General.Release.general_exception_base.Constructed e5)
    (e6 : General.Release.general_exception)
    (h6 : General.Release.general_exception.Constructed e6)
    (e7 : General.Debug.general_exception_base)
    (h7 : General.Debug.general_exception_base.Constructed e7)
    (e8 : General.Debug.general_exception)
    (h8 : General.Debug.general_exception.Constructed e8) :
    Elegant.limit_exception_message (Elegant.limit_exception_message m)
        = Elegant.limit_exception_message m
    ∧ General.limit_exception_message (General.limit_exception_message m)
        = General.limit_exception_message m
    ∧ (Elegant.Release.elegant_exception_base.ctor_view e1.message).message
        = e1.message
    ∧ (Elegant.Release.elegant_exception.ctor_view e2.message).message
        = e2.message
    ∧ (Elegant.Debug.elegant_exception_base.ctor_view site e3.message l).message
        = e3.message
    ∧ (Elegant.Debug.elegant_exception.ctor_view cc site e4.message).message
        = e4.message
    ∧ (General.Release.general_exception_base.ctor_view e5.message).message
        = e5.message
    ∧ (General.Release.general_exception.ctor_view e6.message).message
        = e6.message
    ∧ (General.Debug.general_exception_base.ctor_view site e7.message l).message
        = e7.message
    ∧ (General.Debug.general_exception.ctor_view cc site e8.message).message
        = e8.message := by
  refine ⟨stored_message_idempotent m, stored_message_idempotent m, ?_, ?_, ?_, ?_, ?_, ?_,
    ?_, ?_⟩
  · exact stored_message_of_length_le _ (message_length_le_elegant_release_base h1)
  · exact stored_message_of_length_le _ (message_length_le_elegant_release_public h2)
  · exact stored_message_of_length_le _ (message_length_le_elegant_debug_base h3)
  · exact stored_message_of_length_le _ (message_length_le_elegant_debug_public h4)
  · exact stored_message_of_length_le _ (message_length_le_general_release_base h5)
  · exact stored_message_of_length_le _ (message_length_le_general_release_public h6)
  · exact stored_message_of_length_le _ (message_length_le_general_debug_base h7)
  · exact stored_message_of_length_le _ (message_length_le_general_debug_public h8)

/-- Claim C14 at a 300-byte message: the value built from it, and the value
built again from the stored message. -/
theorem truncation_is_idempotent_witness :
    Elegant.limit_exception_message (Elegant.limit_exception_message (List.replicate 300 65))
        = Elegant.limit_exception_message (List.replicate 300 65)
    ∧ (Elegant.Release.elegant_exception_base.ctor_view
          (Elegant.Release.elegant_exception_base.ctor_view
            (List.replicate 300 65)).message).message
        = (Elegant.Release.elegant_exception_base.ctor_view (List.replicate 300 65)).message :=
  have h := truncation_is_idempotent (List.replicate 300 65) ⟨[], fun _ => [], fun _ => 0⟩
    ⟨[], [], 9, 1⟩ none
    (Elegant.Release.elegant_exception_base.ctor_view (List.replicate 300 65))
    (Elegant.Release.elegant_exception_base.Constructed.ctor_view _)
    (Elegant.Release.elegant_exception.ctor_view (List.replicate 300 65))
    (Elegant.Release.elegant_exception.Constructed.ctor_view _)
    (Elegant.Debug.elegant_exception_base.ctor_view ⟨[], [], 9, 1⟩ (List.replicate 300 65) none)
    (Elegant.Debug.elegant_exception_base.Constructed.ctor_view _ _ _)
    (Elegant.Debug.elegant_exception.ctor_view ⟨[], fun _ => [], fun _ => 0⟩ ⟨[], [], 9, 1⟩
      (List.replicate 300 65))
    (Elegant.Debug.elegant_exception.Constructed.ctor_view _ _ _)
    (General.Release.general_exception_base.ctor_view (List.replicate 300 65))
    (General.Release.general_exception_base.Constructed.ctor_view _)
    (General.Release.general_exception.ctor_view (List.replicate 300 65))
    (General.Release.general_exception.Constructed.ctor_view _)
    (General.Debug.general_exception_base.ctor_view ⟨[], [], 9, 1⟩ (List.replicate 300 65) none)
    (General.Debug.general_exception_base.Constructed.ctor_view _ _ _)
    (General.Debug.general_exception.ctor_view ⟨[], fun _ => [], fun _ => 0⟩ ⟨[], [], 9, 1⟩
      (List.replicate 300 65))
    (General.Debug.general_exception.Constructed.ctor_view _ _ _)
  ⟨h.1, h.2.2.1⟩

/-- Claim C15.  A constructor leaves the member it is not given at its default:
the message-only constructors yield `id()` equal to 2^64 - 1, and the
code-only constructor yields an empty `message()`, in both build modes and
both headers. -/
theorem ungiven_member_keeps_default (c : ExceptionID) (m : List Byte) (cc : Compiler)
    (site loc : source_location) (l : Option source_location) :
    (Elegant.Release.elegant_exception_base.ctor_msg m).id = 2 ^ 64 - 1
    ∧ (Elegant.Release.elegant_exception_base.ctor_view m).id = 2 ^ 64 - 1
    ∧ (Elegant.Release.elegant_exception_base.ctor_id c).message = []
    ∧ (Elegant.Release.elegant_exception.ctor_msg m).id = 2 ^ 64 - 1
    ∧ (Elegant.Release.elegant_exception.ctor_view m).id = 2 ^ 64 - 1
    ∧ (Elegant.Release.elegant_exception.ctor_id c).message = []
    ∧ (Elegant.Debug.elegant_exception_base.ctor_msg site m l).id = 2 ^ 64 - 1
    ∧ (Elegant.Debug.elegant_exception_base.ctor_view site m l).id = 2 ^ 64 - 1
    ∧ (Elegant.Debug.elegant_exception_base.ctor_id site c l).message = []
    ∧ (Elegant.Debug.elegant_exception.ctor_msg cc site m).id = 2 ^ 64 - 1
    ∧ (Elegant.Debug.elegant_exception.ctor_view cc site m).id = 2 ^ 64 - 1
    ∧ (Elegant.Debug.elegant_exception.ctor_view_loc cc site m loc).id = 2 ^ 64 - 1
    ∧ (Elegant.Debug.elegant_exception.ctor_id cc site c).message = []
    ∧ (General.Release.general_exception_base.ctor_msg m).id = 2 ^ 64 - 1
    ∧ (General.Release.general_exception_base.ctor_view m).id = 2 ^ 64 - 1
    ∧ (General.Release.general_exception_base.ctor_id c).message = []
    ∧ (General.Release.general_exception.ctor_msg m).id = 2 ^ 64 - 1
    ∧ (General.Release.general_exception.ctor_view m).id = 2 ^ 64 - 1
    ∧ (General.Release.general_exception.ctor_id c).message = []
    ∧ (General.Debug.general_exception_base.ctor_msg site m l).id = 2 ^ 64 - 1
    ∧ (General.Debug.general_exception_base.ctor_view site m l).id = 2 ^ 64 - 1
    ∧ (General.Debug.general_exception_base.ctor_id site c l).message = []
    ∧ (General.Debug.general_exception.ctor_msg cc site m).id = 2 ^ 64 - 1
    ∧ (General.Debug.general_exception.ctor_view cc site m).id = 2 ^ 64 - 1
    ∧ (General.Debug.general_exception.ctor_view_loc cc site m loc).id = 2 ^ 64 - 1
    ∧ (General.Debug.general_exception.ctor_id cc site c).message = [] := by
  repeat' constructor

/-! ### Reading the code back from the line -/

theorem digit_byte_toNat (k : Nat) (h : k < 10) : (UInt8.ofNat (48 + k)).toNat = 48 + k := by
  interval_cases k <;> rfl

theorem digit_byte_ne_comma (k : Nat) (h : k < 10) : UInt8.ofNat (48 + k) ≠ 44 := by
  interval_cases k <;> decide

theorem to_chars_aux_ne_comma (fuel : Nat) :
    ∀ (n : Nat), ∀ b ∈ to_chars_aux fuel n, b ≠ 44 := by
  induction fuel with
  | zero => intro n b hb; simp [to_chars_aux] at hb
  | succ fuel ih =>
    intro n b hb
    rw [to_chars_aux] at hb
    by_cases hn : n < 10
    · simp only [hn, if_true, List.mem_singleton] at hb
      rw [hb]
      exact digit_byte_ne_comma n hn
    · simp only [hn, if_false, List.mem_append, List.mem_singleton] at hb
      rcases hb with hb | hb
      · exact ih _ b hb
      · rw [hb]
        exact digit_byte_ne_comma (n % 10) (by omega)

theorem decimal_value_to_chars_aux (fuel : Nat) :
    ∀ (n : Nat), n < fuel → decimal_value (to_chars_aux fuel n) = n := by
  induction fuel with
  | zero => intro n h; omega
  | succ fuel ih =>
    intro n h
    rw [to_chars_aux]
    by_cases hn : n < 10
    · simp only [hn, if_true, decimal_value, List.foldl_cons, List.foldl_nil]
      rw [digit_byte_toNat n hn]
      omega
    · have hlt : n / 10 < fuel := by omega
      have hrec := ih (n / 10) hlt
      simp only [hn, if_false, decimal_value, List.foldl_append, List.foldl_cons,
        List.foldl_nil] at hrec ⊢
      rw [hrec, digit_byte_toNat (n % 10) (by omega)]
      omega

/-- The rendering of a code determines the code. -/
theorem format_unsigned_injective (a b : Nat) (h : format_unsigned a = format_unsigned b) :
    a = b := by
  have ha := decimal_value_to_chars_aux (a + 1) a (by omega)
  have hb := decimal_value_to_chars_aux (b + 1) b (by omega)
  unfold format_unsigned at h
  rw [h] at ha
  omega

/-- A run without a comma, followed by a comma, is read back in one way. -/
theorem run_before_comma_unique (d1 : List Byte) :
    ∀ (d2 r1 r2 : List Byte), (∀ b ∈ d1, b ≠ 44) → (∀ b ∈ d2, b ≠ 44) →
      d1 ++ 44 :: r1 = d2 ++ 44 :: r2 → d1 = d2 ∧ r1 = r2 := by
  induction d1 with
  | nil =>
    intro d2 r1 r2 _ h2 h
    cases d2 with
    | nil => simp at h; exact ⟨rfl, h⟩
    | cons x d2 =>
      simp only [List.nil_append, List.cons_append, List.cons.injEq] at h
      exact absurd h.1.symm (h2 x (by simp))
  | cons y d1 ih =>
    intro d2 r1 r2 h1 h2 h
    cases d2 with
    | nil =>
      simp only [List.nil_append, List.cons_append, List.cons.injEq] at h
      exact absurd h.1 (h1 y (by simp))
    | cons x d2 =>
      simp only [List.cons_append, List.cons.injEq] at h
      have hrec := ih d2 r1 r2 (fun b hb => h1 b (by simp [hb]))
        (fun b hb => h2 b (by simp [hb])) h.2
      exact ⟨by rw [h.1, hrec.1], hrec.2⟩

/-- Two production lines that are equal have the same code and the same
message. -/
theorem production_line_injective (c1 c2 : Nat) (m1 m2 : List Byte)
    (h : std_format (bytes "Exception: error_code: {}, error_message: {}")
          [format_unsigned c1, m1]
       = std_format (bytes "Exception: error_code: {}, error_message: {}")
          [format_unsigned c2, m2]) :
    c1 = c2 ∧ m1 = m2 := by
  rw [release_template_format, release_template_format] at h
  have hs : bytes ", error_message: " = 44 :: bytes " error_message: " := by decide
  rw [hs] at h
  simp only [List.append_assoc, List.cons_append] at h
  have h2 := List.append_cancel_left h
  have h3 := run_before_comma_unique _ _ _ _ (to_chars_aux_ne_comma _ _)
    (to_chars_aux_ne_comma _ _) h2
  exact ⟨format_unsigned_injective _ _ h3.1, List.append_cancel_left h3.2⟩

/-- Claim C16.  In production mode `what()` is injective on the observable
state: two values with the same `what()` have the same `id()` and the same
`message()`, in both headers, for the base class and the public class. -/
theorem production_what_injective :
    (∀ e1 e2 : Elegant.Release.elegant_exception_base,
        e1.what = e2.what → e1.id = e2.id ∧ e1.message = e2.message)
    ∧ (∀ e1 e2 : Elegant.Release.elegant_exception,
        e1.what = e2.what → e1.id = e2.id ∧ e1.message = e2.message)
    ∧ (∀ e1 e2 : General.Release.general_exception_base,
        e1.what = e2.what → e1.id = e2.id ∧ e1.message = e2.message)
    ∧ (∀ e1 e2 : General.Release.general_exception,
        e1.what = e2.what → e1.id = e2.id ∧ e1.message = e2.message) :=
  ⟨fun e1 e2 h => production_line_injective e1.id e2.id e1.message e2.message h,
   fun e1 e2 h => production_line_injective e1.id e2.id e1.message e2.message h,
   fun e1 e2 h => production_line_injective e1.id e2.id e1.message e2.message h,
   fun e1 e2 h => production_line_injective e1.id e2.id e1.message e2.message h⟩

/-- Claim C16 at two values built by different constructors from code 42 and
message `disk full`. -/
theorem production_what_injective_witness :
    (Elegant.Release.elegant_exception_base.ctor_id_msg 42 (bytes "disk full")).what
        = (Elegant.Release.elegant_exception_base.ctor_id_view 42 (bytes "disk full")).what
    ∧ (Elegant.Release.elegant_exception_base.ctor_id_msg 42 (bytes "disk full")).id
        = (Elegant.Release.elegant_exception_base.ctor_id_view 42 (bytes "disk full")).id
    ∧ (Elegant.Release.elegant_exception_base.ctor_id_msg 42 (bytes "disk full")).message
        = (Elegant.Release.elegant_exception_base.ctor_id_view 42
            (bytes "disk full")).message :=
  ⟨rfl, production_what_injective.1
    (Elegant.Release.elegant_exception_base.ctor_id_msg 42 (bytes "disk full"))
    (Elegant.Release.elegant_exception_base.ctor_id_view 42 (bytes "disk full")) rfl⟩

/-! ### The length of the production line -/

theorem bytes_length (s : String) : (bytes s).length = s.length := by
  unfold bytes
  rw [List.length_map]
  rfl

theorem to_chars_aux_length_pos (fuel n : Nat) (h : 0 < fuel) :
    1 ≤ (to_chars_aux fuel n).length := by
  cases fuel with
  | zero => omega
  | succ fuel =>
    rw [to_chars_aux]
    split <;> simp

theorem to_chars_aux_length_le (k : Nat) :
    ∀ (fuel n : Nat), 0 < k → n < 10 ^ k → (to_chars_aux fuel n).length ≤ k := by
  induction k with
  | zero => intro fuel n h; omega
  | succ k ih =>
    intro fuel n _ hn
    cases fuel with
    | zero => simp [to_chars_aux]
    | succ fuel =>
      rw [to_chars_aux]
      by_cases h10 : n < 10
      · simp [h10]
      · have hk : 0 < k := by
          rcases Nat.eq_zero_or_pos k with h0 | h0
          · subst h0; simp at hn; omega
          · exact h0
        have hdiv : n / 10 < 10 ^ k := by
          rw [Nat.pow_succ] at hn
          omega
        have hrec := ih fuel (n / 10) hk hdiv
        simp only [h10, if_false, List.length_append, List.length_singleton]
        omega

/-- A 64-bit code has between 1 and 20 decimal digits. -/
theorem repr_length_of_lt (c : Nat) (h : c < 2 ^ 64) :
    1 ≤ (Nat.repr c).length ∧ (Nat.repr c).length ≤ 20 := by
  rw [← bytes_length, ← format_unsigned_eq_repr]
  unfold format_unsigned
  refine ⟨to_chars_aux_length_pos _ _ (by omega), ?_⟩
  exact to_chars_aux_length_le 20 _ _ (by omega) (by omega)

/-- The length of a production line. -/
theorem production_line_length (c : Nat) (m : List Byte) :
    (std_format (bytes "Exception: error_code: {}, error_message: {}")
        [format_unsigned c, m]).length = 40 + (Nat.repr c).length + m.length := by
  rw [release_template_format, format_unsigned_eq_repr]
  simp only [List.length_append, bytes_length]
  have h1 : ("Exception: error_code: " : String).length = 23 := by decide
  have h2 : (", error_message: " : String).length = 17 := by decide
  omega

theorem production_line_length_bounds (c : Nat) (m : List Byte) (hc : c < 2 ^ 64)
    (hm : m.length ≤ 256) :
    41 ≤ (std_format (bytes "Exception: error_code: {}, error_message: {}")
        [format_unsigned c, m]).length
    ∧ (std_format (bytes "Exception: error_code: {}, error_message: {}")
        [format_unsigned c, m]).length ≤ 316 := by
  rw [production_line_length]
  have h := repr_length_of_lt c hc
  omega

theorem production_line_length_max (m : List Byte) (hm : 256 ≤ m.length) :
    (std_format (bytes "Exception: error_code: {}, error_message: {}")
        [format_unsigned ExceptionID_max, stored_message m]).length = 316 := by
  rw [production_line_length, stored_message_eq_take, List.length_take]
  have h : (Nat.repr ExceptionID_max).length = 20 := by decide
  omega

/-- Claim C17.  In production mode the length of `what()` is 40 plus the number
of decimal digits of the code plus the length of the message (23 bytes of
`Exception: error_code: `, 17 bytes of `, error_message: `); a 64-bit code has
1 to 20 digits, so for a constructed value with a 64-bit code the length is
at least 41 and at most 316, and 316 is reached by the sentinel code with a
message of 256 or more bytes. -/
theorem production_what_length_bounds :
    (bytes "Exception: error_code: ").length = 23
    ∧ (bytes ", error_message: ").length = 17
    ∧ (∀ c : ExceptionID, c < 2 ^ 64 → 1 ≤ (Nat.repr c).length ∧ (Nat.repr c).length ≤ 20)
    ∧ ExceptionID_max < 2 ^ 64
    ∧ (∀ e : Elegant.Release.elegant_exception_base,
        e.what.length = 40 + (Nat.repr e.id).length + e.message.length)
    ∧ (∀ e : Elegant.Release.elegant_exception_base, Elegant.Release.elegant_exception_base.Constructed e → e.id < 2 ^ 64 →
        41 ≤ e.what.length ∧ e.what.length ≤ 316)
    ∧ (∀ m : List Byte, 256 ≤ m.length →
        (Elegant.Release.elegant_exception_base.ctor_id_view ExceptionID_max m).what.length = 316)
    ∧ (∀ e : Elegant.Release.elegant_exception,
        e.what.length = 40 + (Nat.repr e.id).length + e.message.length)
    ∧ (∀ e : Elegant.Release.elegant_exception, Elegant.Release.elegant_exception.Constructed e → e.id < 2 ^ 64 →
        41 ≤ e.what.length ∧ e.what.length ≤ 316)
    ∧ (∀ m : List Byte, 256 ≤ m.length →
        (Elegant.Release.elegant_exception.ctor_id_view ExceptionID_max m).what.length = 316)
    ∧ (∀ e : General.Release.general_exception_base,
        e.what.length = 40 + (Nat.repr e.id).length + e.message.length)
    ∧ (∀ e : General.Release.general_exception_base, General.Release.general_exception_base.Constructed e → e.id < 2 ^ 64 →
        41 ≤ e.what.length ∧ e.what.length ≤ 316)
    ∧ (∀ m : List Byte, 256 ≤ m.length →
        (General.Release.general_exception_base.ctor_id_view ExceptionID_max m).what.length = 316)
    ∧ (∀ e : General.Release.general_exception,
        e.what.length = 40 + (Nat.repr e.id).length + e.message.length)
    ∧ (∀ e : General.Release.general_exception, General.Release.general_exception.Constructed e → e.id < 2 ^ 64 →
        41 ≤ e.what.length ∧ e.what.length ≤ 316)
    ∧ (∀ m : List Byte, 256 ≤ m.length →
        (General.Release.general_exception.ctor_id_view ExceptionID_max m).what.length = 316) :=
  ⟨by decide, by decide, repr_length_of_lt, by decide,
   fun e => production_line_length e.id e.message,
   fun e h hc => production_line_length_bounds e.id e.message hc
      (message_length_le_elegant_release_base h),
   fun m hm => production_line_length_max m hm,
   fun e => production_line_length e.id e.message,
   fun e h hc => production_line_length_bounds e.id e.message hc
      (message_length_le_elegant_release_public h),
   fun m hm => production_line_length_max m hm,
   fun e => production_line_length e.id e.message,
   fun e h hc => production_line_length_bounds e.id e.message hc
      (message_length_le_general_release_base h),
   fun m hm => production_line_length_max m hm,
   fun e => production_line_length e.id e.message,
   fun e h hc => production_line_length_bounds e.id e.message hc
      (message_length_le_general_release_public h),
   fun m hm => production_line_length_max m hm⟩

/-- Claim C17 at code 42 with a 300-byte message, and at the sentinel code. -/
theorem production_what_length_bounds_witness :
    Elegant.Release.elegant_exception.Constructed
        (Elegant.Release.elegant_exception.ctor_id_view 42 (List.replicate 300 65))
    ∧ (41 ≤ (Elegant.Release.elegant_exception.ctor_id_view 42
          (List.replicate 300 65)).what.length
      ∧ (Elegant.Release.elegant_exception.ctor_id_view 42
          (List.replicate 300 65)).what.length ≤ 316)
    ∧ (Elegant.Release.elegant_exception.ctor_id_view ExceptionID_max
          (List.replicate 300 65)).what.length = 316 :=
  ⟨Elegant.Release.elegant_exception.Constructed.ctor_id_view 42 (List.replicate 300 65),
   production_what_length_bounds.2.2.2.2.2.2.2.2.1
     (Elegant.Release.elegant_exception.ctor_id_view 42 (List.replicate 300 65))
     (Elegant.Release.elegant_exception.Constructed.ctor_id_view 42 (List.replicate 300 65))
     (by decide),
   production_what_length_bounds.2.2.2.2.2.2.2.2.2.1 (List.replicate 300 65)
     (by rw [List.length_replicate]; omega)⟩

/-! ### Truncation and UTF-8 -/

theorem utf8_run_ascii (m : List Byte) (h : ∀ b ∈ m, b ≤ 127) :
    utf8_run .start m = some .start := by
  induction m with
  | nil => rfl
  | cons b m ih =>
    have hb : b ≤ 127 := h b (by simp)
    have hs : utf8_step .start b = some .start := by
      simp only [utf8_step, hb, if_true]
    rw [utf8_run, hs]
    exact ih (fun x hx => h x (by simp [hx]))

theorem utf8_run_ascii_append (m rest : List Byte) (h : ∀ b ∈ m, b ≤ 127) :
    utf8_run .start (m ++ rest) = utf8_run .start rest := by
  induction m with
  | nil => rfl
  | cons b m ih =>
    have hb : b ≤ 127 := h b (by simp)
    have hs : utf8_step .start b = some .start := by
      simp only [utf8_step, hb, if_true]
    rw [List.cons_append, utf8_run, hs]
    exact ih (fun x hx => h x (by simp [hx]))

theorem replicate_ascii (n : Nat) : ∀ b ∈ List.replicate n (65 : Byte), b ≤ 127 := by
  intro b hb
  rw [List.eq_of_mem_replicate hb]
  decide

theorem stored_message_split_character :
    stored_message (List.replicate 255 65 ++ [0xC3, 0xA9]) = List.replicate 255 65 ++ [0xC3] := by
  rw [stored_message_eq_take, List.take_append_eq_append_take, List.length_replicate,
    List.take_of_length_le (by rw [List.length_replicate]; omega)]
  rfl

/-- Claim C18.  Truncation counts bytes: the message of 255 bytes `A` followed
by the two bytes `C3 A9` of one character is well-formed UTF-8 and 257 bytes
long, and its stored message is 256 bytes long, ends with the lone byte `C3`
and is not well-formed, in both headers; the stored message of an input of
single-byte characters (bytes up to `7F`) is well-formed. -/
theorem truncation_counts_bytes :
    (utf8_well_formed (List.replicate 255 65 ++ [0xC3, 0xA9])
      ∧ (List.replicate 255 (65 : Byte) ++ [0xC3, 0xA9]).length = 257
      ∧ (Elegant.Release.elegant_exception.ctor_view
            (List.replicate 255 65 ++ [0xC3, 0xA9])).message
          = List.replicate 255 65 ++ [0xC3]
      ∧ (Elegant.limit_exception_message (List.replicate 255 65 ++ [0xC3, 0xA9])).length = 256
      ∧ ¬ utf8_well_formed
          (Elegant.limit_exception_message (List.replicate 255 65 ++ [0xC3, 0xA9]))
      ∧ (General.limit_exception_message (List.replicate 255 65 ++ [0xC3, 0xA9])).length = 256
      ∧ ¬ utf8_well_formed
          (General.limit_exception_message (List.replicate 255 65 ++ [0xC3, 0xA9])))
    ∧ (∃ m : List Byte, utf8_well_formed m ∧ 256 < m.length
        ∧ (Elegant.limit_exception_message m).length = 256
        ∧ ¬ utf8_well_formed (Elegant.limit_exception_message m)
        ∧ (General.limit_exception_message m).length = 256
        ∧ ¬ utf8_well_formed (General.limit_exception_message m))
    ∧ (∀ m : List Byte, (∀ b ∈ m, b ≤ 127) →
        utf8_well_formed (Elegant.limit_exception_message m)
        ∧ utf8_well_formed (General.limit_exception_message m)) := by
  have hwf : utf8_well_formed (List.replicate 255 65 ++ [0xC3, 0xA9]) := by
    unfold utf8_well_formed
    rw [utf8_run_ascii_append _ _ (replicate_ascii 255)]
    decide
  have hlen : (List.replicate 255 (65 : Byte) ++ [0xC3, 0xA9]).length = 257 := by
    rw [List.length_append, List.length_replicate]
    rfl
  have hE : Elegant.limit_exception_message (List.replicate 255 65 ++ [0xC3, 0xA9])
      = List.replicate 255 65 ++ [0xC3] :=
    (elegant_limit_exception_message_eq _).trans stored_message_split_character
  have hG : General.limit_exception_message (List.replicate 255 65 ++ [0xC3, 0xA9])
      = List.replicate 255 65 ++ [0xC3] :=
    (general_limit_exception_message_eq _).trans stored_message_split_character
  have hcut : (List.replicate 255 (65 : Byte) ++ [0xC3]).length = 256 := by
    rw [List.length_append, List.length_replicate]
    rfl
  have hbad : ¬ utf8_well_formed (List.replicate 255 65 ++ [0xC3]) := by
    unfold utf8_well_formed
    rw [utf8_run_ascii_append _ _ (replicate_ascii 255)]
    decide
  have hall : utf8_well_formed (List.replicate 255 65 ++ [0xC3, 0xA9])
      ∧ (List.replicate 255 (65 : Byte) ++ [0xC3, 0xA9]).length = 257
      ∧ (Elegant.Release.elegant_exception.ctor_view
            (List.replicate 255 65 ++ [0xC3, 0xA9])).message
          = List.replicate 255 65 ++ [0xC3]
      ∧ (Elegant.limit_exception_message (List.replicate 255 65 ++ [0xC3, 0xA9])).length = 256
      ∧ ¬ utf8_well_formed
          (Elegant.limit_exception_message (List.replicate 255 65 ++ [0xC3, 0xA9]))
      ∧ (General.limit_exception_message (List.replicate 255 65 ++ [0xC3, 0xA9])).length = 256
      ∧ ¬ utf8_well_formed
          (General.limit_exception_message (List.replicate 255 65 ++ [0xC3, 0xA9])) := by
    have hview : ∀ m : List Byte, (Elegant.Release.elegant_exception.ctor_view m).message
        = Elegant.limit_exception_message m := fun _ => rfl
    refine ⟨hwf, hlen, (hview _).trans hE, ?_, ?_, ?_, ?_⟩
    · rw [hE]; exact hcut
    · rw [hE]; exact hbad
    · rw [hG]; exact hcut
    · rw [hG]; exact hbad
  refine ⟨hall, ⟨_, hall.1, ?_, hall.2.2.2⟩, ?_⟩
  · rw [hlen]; omega
  · intro m hm
    have hs : utf8_well_formed (stored_message m) := by
      rw [stored_message_eq_take]
      exact utf8_run_ascii _ (fun b hb => hm b (List.mem_of_mem_take hb))
    exact ⟨(elegant_limit_exception_message_eq m).symm ▸ hs,
      (general_limit_exception_message_eq m).symm ▸ hs⟩

/-- Claim C18 at the single-byte message `disk full`. -/
theorem truncation_counts_bytes_witness :
    (∀ b ∈ bytes "disk full", b ≤ 127)
    ∧ utf8_well_formed (Elegant.limit_exception_message (bytes "disk full"))
    ∧ utf8_well_formed (General.limit_exception_message (bytes "disk full")) :=
  ⟨by decide, truncation_counts_bytes.2.2 (bytes "disk full") (by decide)⟩

end Exc
